/-
Verification of the ascii-doc-validator core against its specification.

This file gives a shallow embedding, in Lean 4, of the pure core of the
validator found under `app/` of the repository:

* `app/services/validators/syntax_validator.py` (structural checks over raw
  document lines),
* `app/services/validation_rule_engine.py` (report construction and status
  derivation),
* `app/services/code_documentation_matcher.py` (single-file code/doc matching),
* `app/services/project_code_documentation_matcher.py` (project-level
  resolution and matching),
* `app/services/analyzers/python_analyzer.py` (parameter extraction from a
  Python function definition).

Python strings are modelled as Lean `String`; Python `re` patterns are
modelled by a small backtracking matcher (`RE`) with Python semantics
(leftmost match, alternative order, greedy/lazy repetition, capture groups);
side effects (subprocess runs, file reads, URL checks, uuid/clock) are
modelled as explicit environment parameters.  All definitions are
executable, so theorems about concrete runs evaluate by `decide`/`rfl`.
-/
import Mathlib

set_option maxRecDepth 4000

/-! ## Python string primitives -/

/-- Python `\s` on ASCII: space, tab, newline, carriage return, vertical tab,
form feed. -/
def pySpaceB (c : Char) : Bool :=
  c = ' ' || c = '\t' || c = '\n' || c = '\r' || c = '\x0b' || c = '\x0c'

/-- Length of the maximal run of characters satisfying `p` at the front. -/
def countLeadingP (p : Char → Bool) : List Char → Nat
  | [] => 0
  | x :: xs => if p x then countLeadingP p xs + 1 else 0

/-- `str.startswith(pre)`. -/
def pyStartswith (s pre : String) : Bool :=
  pre.toList.isPrefixOf s.toList

/-- `str.endswith(suf)`. -/
def pyEndswith (s suf : String) : Bool :=
  suf.toList.reverse.isPrefixOf s.toList.reverse

/-- Python substring containment `needle in s`. -/
def pyContainsAux (needle : List Char) : List Char → Bool
  | [] => needle.isEmpty
  | c :: cs => needle.isPrefixOf (c :: cs) || pyContainsAux needle cs

def pyContains (s needle : String) : Bool :=
  pyContainsAux needle.toList s.toList

/-- `str.strip()` (whitespace on both ends). -/
def pyStrip (s : String) : String :=
  String.mk (((s.toList.dropWhile pySpaceB).reverse.dropWhile pySpaceB).reverse)

/-- `str.lstrip(chars)` for an explicit character set. -/
def pyLstripChars (s : String) (chars : List Char) : String :=
  String.mk (s.toList.dropWhile (fun c => chars.contains c))

/-- `str.rstrip(chars)` for an explicit character set. -/
def pyRstripChars (s : String) (chars : List Char) : String :=
  String.mk ((s.toList.reverse.dropWhile (fun c => chars.contains c)).reverse)

/-- `str.strip(chars)` for an explicit character set. -/
def pyStripChars (s : String) (chars : List Char) : String :=
  pyRstripChars (pyLstripChars s chars) chars

/-- `str.lower()` on the ASCII and Cyrillic ranges the source works with. -/
def pyLowerChar (c : Char) : Char :=
  if 'A' ≤ c && c ≤ 'Z' then Char.ofNat (c.toNat + 32)
  else if 0x410 ≤ c.toNat && c.toNat ≤ 0x42F then Char.ofNat (c.toNat + 32)
  else if c.toNat = 0x401 then Char.ofNat 0x451
  else c

def pyLower (s : String) : String := String.mk (s.toList.map pyLowerChar)

/-- `str.upper()` on the ASCII and Cyrillic ranges the source works with. -/
def pyUpperChar (c : Char) : Char :=
  if 'a' ≤ c && c ≤ 'z' then Char.ofNat (c.toNat - 32)
  else if 0x430 ≤ c.toNat && c.toNat ≤ 0x44F then Char.ofNat (c.toNat - 32)
  else if c.toNat = 0x451 then Char.ofNat 0x401
  else c

def pyUpper (s : String) : String := String.mk (s.toList.map pyUpperChar)

/-- `str.splitlines()`, modelling the newline separator `\n`. -/
def pySplitlinesAux (cur : List Char) : List Char → List String
  | [] => if cur.isEmpty then [] else [String.mk cur.reverse]
  | c :: cs =>
    if c = '\n' then String.mk cur.reverse :: pySplitlinesAux [] cs
    else pySplitlinesAux (c :: cur) cs

def pySplitlines (s : String) : List String := pySplitlinesAux [] s.toList

/-- `str.split()` (split on whitespace runs, dropping empty pieces). -/
def pySplitWsAux (cur : List Char) : List Char → List String
  | [] => if cur.isEmpty then [] else [String.mk cur.reverse]
  | c :: cs =>
    if pySpaceB c then
      if cur.isEmpty then pySplitWsAux [] cs
      else String.mk cur.reverse :: pySplitWsAux [] cs
    else pySplitWsAux (c :: cur) cs

def pySplitWs (s : String) : List String := pySplitWsAux [] s.toList

/-- `str.split(sep)` for a single-character separator. -/
def pySplitCharAux (sep : Char) (cur : List Char) : List Char → List String
  | [] => [String.mk cur.reverse]
  | c :: cs =>
    if c = sep then String.mk cur.reverse :: pySplitCharAux sep [] cs
    else pySplitCharAux sep (c :: cur) cs

def pySplitChar (s : String) (sep : Char) : List String :=
  pySplitCharAux sep [] s.toList

/-- Decimal rendering of a natural number, as Python `str(n)` / f-strings. -/
def natDigitsAux : Nat → Nat → List Char
  | 0, _ => []
  | fuel + 1, n =>
    if n = 0 then []
    else natDigitsAux fuel (n / 10) ++ [Char.ofNat (48 + n % 10)]

def natToStr (n : Nat) : String :=
  if n = 0 then "0" else String.mk (natDigitsAux (n + 1) n)

/-- `os.path.basename` (POSIX separator). -/
def pyBasename (p : String) : String :=
  (pySplitChar p '/').getLastD ""

/-- `os.path.splitext(p)[0]`: the path without its final extension.  The dot
starting a hidden file name does not begin an extension. -/
def splitextRootAux (cs : List Char) : List Char :=
  match cs.reverse.findIdx? (fun c => c = '.') with
  | none => cs
  | some k =>
    let dotPos := cs.length - 1 - k
    if (cs.take dotPos).all (fun c => c = '.') then cs
    else cs.take dotPos

def splitextRoot (p : String) : String :=
  let base := pyBasename p
  let root := String.mk (splitextRootAux base.toList)
  String.mk ((p.toList.take (p.toList.length - base.toList.length)) ++ root.toList)

/-- `os.path.splitext(p)[1]`: the final extension, dot included. -/
def splitextExt (p : String) : String :=
  let base := pyBasename p
  let root := String.mk (splitextRootAux base.toList)
  String.mk (base.toList.drop root.toList.length)

/-! ## A small regex matcher with Python `re` semantics

The validator sources use `re.search` / `re.match` / `re.findall` / `re.sub`
on a fixed set of patterns.  We model those patterns as values of `RE` and
give them Python's backtracking semantics: leftmost match, alternatives in
written order, greedy/lazy repetition, capture groups keeping the last
participation, lookahead.  The matcher is fuel-based; the fuel bounds below
vastly exceed the number of backtracking steps possible for the (small,
star-height-one) patterns of the source on the inputs we evaluate. -/

/-- Python `\w` (covering the ASCII range plus the Cyrillic block used by the
source's Russian keywords). -/
def isWordChar (c : Char) : Bool :=
  c.isAlphanum || c = '_' || (0x400 ≤ c.toNat && c.toNat ≤ 0x4FF)

inductive RE where
  | eps
  | cls (p : Char → Bool)
  | seq (a b : RE)
  | alt (a b : RE)
  | star (a : RE) (greedy : Bool)
  | opt (a : RE) (greedy : Bool)
  | group (idx : Nat) (a : RE)
  | look (a : RE)
  | bol
  | eol
  | eos
  | wb

/-- Captures: `(group index, start, stop)`, most recent first. -/
def Caps := List (Nat × Nat × Nat)

def wordAt (cs : List Char) (j : Nat) : Bool :=
  match cs.drop j with
  | c :: _ => isWordChar c
  | [] => false

/-- The backtracking matcher, in continuation-passing style.  `k` receives
the position after the current subpattern and the captures so far. -/
def reMatch : Nat → RE → List Char → Nat → Caps →
    (Nat → Caps → Option (Nat × Caps)) → Option (Nat × Caps)
  | 0, _, _, _, _, _ => none
  | fuel + 1, re, cs, pos, caps, k =>
    match re with
    | .eps => k pos caps
    | .cls p =>
      match cs.drop pos with
      | c :: _ => if p c then k (pos + 1) caps else none
      | [] => none
    | .seq a b =>
      reMatch fuel a cs pos caps (fun p2 c2 => reMatch fuel b cs p2 c2 k)
    | .alt a b =>
      match reMatch fuel a cs pos caps k with
      | some r => some r
      | none => reMatch fuel b cs pos caps k
    | .star a greedy =>
      if greedy then
        match reMatch fuel a cs pos caps (fun p2 c2 =>
            if p2 = pos then none else reMatch fuel (.star a greedy) cs p2 c2 k) with
        | some r => some r
        | none => k pos caps
      else
        match k pos caps with
        | some r => some r
        | none =>
          reMatch fuel a cs pos caps (fun p2 c2 =>
            if p2 = pos then none else reMatch fuel (.star a greedy) cs p2 c2 k)
    | .opt a greedy =>
      if greedy then
        match reMatch fuel a cs pos caps k with
        | some r => some r
        | none => k pos caps
      else
        match k pos caps with
        | some r => some r
        | none => reMatch fuel a cs pos caps k
    | .group i a =>
      reMatch fuel a cs pos caps (fun p2 c2 => k p2 ((i, pos, p2) :: c2))
    | .look a =>
      match reMatch fuel a cs pos caps (fun p2 c2 => some (p2, c2)) with
      | some _ => k pos caps
      | none => none
    | .bol => if pos = 0 then k pos caps else none
    | .eol =>
      if pos = cs.length || (pos + 1 = cs.length && (cs.drop pos).headD ' ' = '\n') then
        k pos caps
      else none
    | .eos => if pos = cs.length then k pos caps else none
    | .wb =>
      let left := if pos = 0 then false else wordAt cs (pos - 1)
      if left ≠ wordAt cs pos then k pos caps else none

/-- Fuel amply sufficient for the source's patterns on the inputs evaluated
in this file. -/
def reFuel (cs : List Char) : Nat := (cs.length + 8) * (cs.length + 8) * 64

/-- One anchored attempt at `pos`; returns the end position and captures of
the first (preferred) match. -/
def reMatchAt (re : RE) (cs : List Char) (pos : Nat) : Option (Nat × Caps) :=
  reMatch (reFuel cs) re cs pos [] (fun p c => some (p, c))

/-- `re.search`: leftmost match, scanning start positions left to right. -/
def reSearchFrom : Nat → RE → List Char → Nat → Option (Nat × Nat × Caps)
  | 0, _, _, _ => none
  | fuel + 1, re, cs, pos =>
    match reMatchAt re cs pos with
    | some (e, caps) => some (pos, e, caps)
    | none => if pos < cs.length then reSearchFrom fuel re cs (pos + 1) else none

def reSearch (re : RE) (s : String) : Option (Nat × Nat × Caps) :=
  reSearchFrom (s.toList.length + 1) re s.toList 0

/-- `re.match`: anchored at position 0. -/
def reMatchStr (re : RE) (s : String) : Option (Nat × Caps) :=
  reMatchAt re s.toList 0

/-- Content of capture group `i` (Python `m.group(i)`), `none` when the
group did not participate in the match. -/
def capStr (cs : List Char) (caps : Caps) (i : Nat) : Option String :=
  (caps.find? (fun t => t.1 = i)).map
    (fun t => String.mk ((cs.drop t.2.1).take (t.2.2 - t.2.1)))

/-- All non-overlapping matches, as `(start, stop, captures)` triples
(`re.finditer` order; zero-width matches advance by one). -/
def reFindIterFrom : Nat → RE → List Char → Nat → List (Nat × Nat × Caps)
  | 0, _, _, _ => []
  | fuel + 1, re, cs, pos =>
    match reSearchFrom (cs.length + 1) re cs pos with
    | none => []
    | some (s, e, caps) =>
      (s, e, caps) :: reFindIterFrom fuel re cs (if e = s then e + 1 else e)

def reFindIter (re : RE) (s : String) : List (Nat × Nat × Caps) :=
  reFindIterFrom (s.toList.length + 2) re s.toList 0

/-- `re.findall` for a pattern with exactly one capture group. -/
def reFindall1 (re : RE) (s : String) : List String :=
  (reFindIter re s).map (fun m => (capStr s.toList m.2.2 1).getD "")

/-- `re.findall` for a pattern with exactly two capture groups. -/
def reFindall2 (re : RE) (s : String) : List (String × String) :=
  (reFindIter re s).map (fun m =>
    ((capStr s.toList m.2.2 1).getD "", (capStr s.toList m.2.2 2).getD ""))

/-- `re.findall` for a pattern without capture groups (whole matches). -/
def reFindallW (re : RE) (s : String) : List String :=
  (reFindIter re s).map (fun m => String.mk ((s.toList.drop m.1).take (m.2.1 - m.1)))

/-- `re.sub` with a replacement computed from the captures. -/
def reSubFrom : Nat → RE → (List Char → Caps → String) → List Char → Nat → List Char
  | 0, _, _, cs, pos => cs.drop pos
  | fuel + 1, re, repl, cs, pos =>
    match reSearchFrom (cs.length + 1) re cs pos with
    | none => cs.drop pos
    | some (s, e, caps) =>
      if e = s then
        ((cs.drop pos).take (s - pos)) ++ (repl cs caps).toList
          ++ ((cs.drop s).take 1) ++ reSubFrom fuel re repl cs (e + 1)
      else
        ((cs.drop pos).take (s - pos)) ++ (repl cs caps).toList
          ++ reSubFrom fuel re repl cs e

def reSub (re : RE) (repl : List Char → Caps → String) (s : String) : String :=
  String.mk (reSubFrom (s.toList.length + 2) re repl s.toList 0)

/-! Pattern-building helpers mirroring the source's regex syntax. -/

def RE.chr (c : Char) : RE := .cls (fun x => x = c)

/-- A literal character under `re.IGNORECASE`. -/
def RE.chrI (c : Char) : RE := .cls (fun x => pyLowerChar x = pyLowerChar c)

def RE.lit (s : String) : RE := s.toList.foldr (fun c r => .seq (.chr c) r) .eps

def RE.litI (s : String) : RE := s.toList.foldr (fun c r => .seq (.chrI c) r) .eps

/-- `X+` (greedy). -/
def RE.plus (a : RE) : RE := .seq a (.star a true)

/-- `X+?` (lazy). -/
def RE.plusL (a : RE) : RE := .seq a (.star a false)

def RE.alts : List RE → RE
  | [] => .eps
  | [a] => a
  | a :: rest => .alt a (RE.alts rest)

def RE.cat : List RE → RE
  | [] => .eps
  | [a] => a
  | a :: rest => .seq a (RE.cat rest)

/-- `\s` -/
def wsC : RE := .cls pySpaceB
/-- `\w` -/
def wordC : RE := .cls isWordChar
/-- `\d` -/
def digitC : RE := .cls Char.isDigit
/-- `.` without `re.DOTALL` -/
def dotC : RE := .cls (fun c => c ≠ '\n')
/-- `.` with `re.DOTALL` -/
def dotAllC : RE := .cls (fun _ => true)
/-- `[...]` -/
def oneOfC (l : List Char) : RE := .cls (fun c => l.contains c)
/-- `[^...]` -/
def noneOfC (l : List Char) : RE := .cls (fun c => !l.contains c)

/-! ## Validation report model (`app/models/validation_report.py`) -/

inductive IssueType where
  | SYNTAX
  | SEMANTIC
  | COMPLETENESS
  | QUALITY
deriving DecidableEq

structure IssueLocation where
  line : Option Nat := none
  column : Option Nat := none
  section_ : Option String := none
deriving DecidableEq

structure ValidationIssue where
  id : String
  type : IssueType
  location : IssueLocation
  issue : String
  original_content : Option String := none
  corrected_content : Option String := none
  rule_applied : Option String := none
deriving DecidableEq

structure ValidationSummary where
  total_issues : Nat := 0
  corrected_issues : Nat := 0
  skipped_issues : Nat := 0
deriving DecidableEq

inductive ValidationStatus where
  | VALID
  | VALID_WITH_WARNINGS
  | INVALID
  | PARTIALLY_CORRECTED
  | FULLY_CORRECTED
deriving DecidableEq

structure ValidationReport where
  validation_id : String
  documentation_source : String
  timestamp : Int
  issues : List ValidationIssue := []
  corrections : List ValidationIssue := []
  summary : ValidationSummary
  status : ValidationStatus
deriving DecidableEq

/-! ## Code structure model (`app/models/code_structure.py`)

The reserved-but-unused `enums`/`interfaces`/`constants` lists of
`CodeStructure` are omitted; no code path of the analysed services reads
them. -/

inductive LanguageType where
  | JAVA
  | PYTHON
  | JAVASCRIPT
  | TYPESCRIPT
  | CSHARP
  | OTHER
deriving DecidableEq

/-- `LanguageType(value)`, with the `ValueError` on an unknown value
modelled as `none`. -/
def LanguageType.ofValue : String → Option LanguageType
  | "JAVA" => some .JAVA
  | "PYTHON" => some .PYTHON
  | "JAVASCRIPT" => some .JAVASCRIPT
  | "TYPESCRIPT" => some .TYPESCRIPT
  | "CSHARP" => some .CSHARP
  | "OTHER" => some .OTHER
  | _ => none

structure AnnotationInfo where
  name : String
  parameters : Option (List (String × String)) := none
deriving DecidableEq

structure ParameterInfo where
  name : String
  type : Option String := none
  default_value : Option String := none
  required : Bool := true
  annotations : List AnnotationInfo := []
  description : Option String := none
deriving DecidableEq

structure MethodInfo where
  name : String
  documentation : Option String := none
  modifiers : List String := []
  return_type : Option String := none
  parameters : List ParameterInfo := []
  exceptions : List String := []
  annotations : List AnnotationInfo := []
  is_api_endpoint : Bool := false
  http_method : Option String := none
  path : Option String := none
  line_start : Nat
  line_end : Nat
deriving DecidableEq

structure FieldInfo where
  name : String
  documentation : Option String := none
  modifiers : List String := []
  type : String
  default_value : Option String := none
  annotations : List AnnotationInfo := []
  line : Nat
deriving DecidableEq

structure ClassInfo where
  name : String
  documentation : Option String := none
  modifiers : List String := []
  methods : List MethodInfo := []
  fields : List FieldInfo := []
  superclasses : List String := []
  interfaces : List String := []
  annotations : List AnnotationInfo := []
  is_controller : Bool := false
  line_start : Nat
  line_end : Nat
deriving DecidableEq

structure ImportInfo where
  module : String
  alias_ : Option String := none
  elements : List String := []
  line : Nat
deriving DecidableEq

structure CodeStructure where
  metadata : List (String × String) := []
  imports : List ImportInfo := []
  classes : List ClassInfo := []
  functions : List MethodInfo := []
deriving DecidableEq

/-! ## Documentation structure model

The matcher receives parsed documentation as plain Python dicts; the fields
below are exactly the keys the matcher services read (`.get` with the
defaults shown), with `Option` marking keys that may be absent. -/

structure DocParam where
  name : Option String := none
  type : Option String := none
  required : Option Bool := none
  description : Option String := none
  line : Option Nat := none
deriving DecidableEq

structure DocSubsection where
  title : String := ""
  params : List DocParam := []
deriving DecidableEq

structure DocSection where
  title : String := ""
  content : String := ""
  level : Nat := 0
  line_number : Option Nat := none
  path : Option String := none
  url : Option String := none
  subsections : List DocSubsection := []
deriving DecidableEq

structure DocStructure where
  meta_title : Option String := none
  detected_language : Option String := none
  sections : List DocSection := []
deriving DecidableEq

/-! Python dict and truthiness helpers.  Dicts are modelled as association
lists in insertion order; `dictInsert` overwrites in place as Python does. -/

def alookup (l : List (String × α)) (k : String) : Option α :=
  (l.find? (fun p => p.1 = k)).map (fun p => p.2)

def dictContains (l : List (String × α)) (k : String) : Bool :=
  (l.find? (fun p => p.1 = k)).isSome

def dictInsert (l : List (String × α)) (k : String) (v : α) : List (String × α) :=
  if dictContains l k then l.map (fun p => if p.1 = k then (k, v) else p)
  else l ++ [(k, v)]

/-- Truthiness of an optional string (`if x:` on an `Optional[str]`). -/
def optTruthy : Option String → Bool
  | some s => s ≠ ""
  | none => false

/-- Python `a or b` on two optional strings. -/
def pyOrOptStr (a b : Option String) : Option String :=
  if optTruthy a then a else b

/-- An `Optional` value rendered inside an f-string (`None` when absent). -/
def fmtOptStr (o : Option String) : String := o.getD "None"

def fmtOptNat (o : Option Nat) : String := (o.map natToStr).getD "None"

def fmtBoolRu (b : Bool) : String := if b then "обязательный" else "необязательный"

def pyIsLowerAlpha (c : Char) : Bool :=
  ('a' ≤ c && c ≤ 'z') || (0x430 ≤ c.toNat && c.toNat ≤ 0x44F) || c.toNat = 0x451

def pyIsUpperAlpha (c : Char) : Bool :=
  ('A' ≤ c && c ≤ 'Z') || (0x410 ≤ c.toNat && c.toNat ≤ 0x42F) || c.toNat = 0x401

/-- `str.replace(pat, rep)` (all occurrences, left to right). -/
def pyReplaceGo (pat rep : List Char) : Nat → List Char → List Char
  | 0, cs => cs
  | _ + 1, [] => []
  | fuel + 1, c :: cs =>
    if pat.isPrefixOf (c :: cs) && !pat.isEmpty then
      rep ++ pyReplaceGo pat rep fuel ((c :: cs).drop pat.length)
    else c :: pyReplaceGo pat rep fuel cs

def pyReplace (s pat rep : String) : String :=
  String.mk (pyReplaceGo pat.toList rep.toList (s.toList.length + 1) s.toList)

/-! ## Structural checks of `SyntaxValidator` (`syntax_validator.py`)

`_validate_headers`, `_validate_code_blocks`, `_validate_lists` and
`_validate_tables` scan the raw document lines. -/

/-- Match of `^(=+)\s+(.+)$` against one line: the level (length of the
maximal leading `=` run) and the raw second capture group.  `\s+` is greedy
but backtracks so that `(.+)` keeps at least one character. -/
def headerMatch (line : String) : Option (Nat × String) :=
  let cs := line.toList
  let k := countLeadingP (fun c => c = '=') cs
  if k = 0 then none
  else
    let rest := cs.drop k
    let w := countLeadingP pySpaceB rest
    if w = 0 then none
    else if w < rest.length then some (k, String.mk (rest.drop w))
    else if 2 ≤ rest.length then some (k, String.mk (rest.drop (rest.length - 1)))
    else none

def headerLevelIssue (i level cur : Nat) (line : String) : ValidationIssue :=
  { id := "SYNTAX-HEADER-LEVEL-" ++ natToStr (i + 1)
    type := IssueType.SYNTAX
    location := { line := some (i + 1) }
    issue := "Заголовок уровня " ++ natToStr level ++ " следует за заголовком уровня "
      ++ natToStr cur ++ ". Пропущен уровень " ++ natToStr (cur + 1) ++ "."
    original_content := some line }

def headerEmptyIssue (i : Nat) (line : String) : ValidationIssue :=
  { id := "SYNTAX-HEADER-EMPTY-" ++ natToStr (i + 1)
    type := IssueType.SYNTAX
    location := { line := some (i + 1) }
    issue := "Заголовок не должен быть пустым."
    original_content := some line }

def headerFormatIssue (i : Nat) (line : String) : ValidationIssue :=
  { id := "SYNTAX-HEADER-FORMAT-" ++ natToStr (i + 1)
    type := IssueType.SYNTAX
    location := { line := some (i + 1) }
    issue := "Некорректный формат заголовка. Должен быть '= Заголовок'."
    original_content := some line }

/-- The scan of `_validate_headers`: `i` is the 0-based line index and `cur`
the `current_level` state (0 before any heading). -/
def validateHeadersGo : List String → Nat → Nat → List ValidationIssue
  | [], _, _ => []
  | line :: rest, i, cur =>
    if pyStartswith line "=" then
      match headerMatch line with
      | some (level, rawTitle) =>
        let title := pyStrip rawTitle
        (if level > cur + 1 && cur > 0 then [headerLevelIssue i level cur line] else [])
          ++ (if title = "" then [headerEmptyIssue i line] else [])
          ++ validateHeadersGo rest (i + 1) level
      | none => headerFormatIssue i line :: validateHeadersGo rest (i + 1) cur
    else validateHeadersGo rest (i + 1) cur

def validateHeaders (lines : List String) : List ValidationIssue :=
  validateHeadersGo lines 0 0

/-- `_validate_code_blocks`: a line opening (or, intendedly, closing) a
delimited block is one starting with one of the six 4-character markers. -/
def isBlockDelimStart (line : String) : Bool :=
  pyStartswith line "----" || pyStartswith line "...." || pyStartswith line "===="
    || pyStartswith line "++++" || pyStartswith line "****" || pyStartswith line "____"

def blockNestedIssue (i startLine : Nat) (line : String) : ValidationIssue :=
  { id := "SYNTAX-CODE-BLOCK-NESTED-" ++ natToStr (i + 1)
    type := IssueType.SYNTAX
    location := { line := some (i + 1) }
    issue := "Вложенный блок кода без закрытия предыдущего, начатого на строке "
      ++ natToStr (startLine + 1) ++ "."
    original_content := some line }

def blockUnclosedIssue (startLine : Nat) (startContent : String) : ValidationIssue :=
  { id := "SYNTAX-CODE-BLOCK-UNCLOSED-" ++ natToStr (startLine + 1)
    type := IssueType.SYNTAX
    location := { line := some (startLine + 1) }
    issue := "Незакрытый блок кода."
    original_content := some startContent }

def validateCodeBlocksGo :
    List String → Nat → Bool → Nat → String → List ValidationIssue × (Bool × Nat)
  | [], _, inBlock, startLine, _ => ([], (inBlock, startLine))
  | line :: rest, i, inBlock, startLine, delim =>
    if isBlockDelimStart line then
      if inBlock then
        let (issues, st) := validateCodeBlocksGo rest (i + 1) inBlock startLine delim
        (blockNestedIssue i startLine line :: issues, st)
      else validateCodeBlocksGo rest (i + 1) true i line
    else if inBlock && line = delim then
      validateCodeBlocksGo rest (i + 1) false startLine ""
    else validateCodeBlocksGo rest (i + 1) inBlock startLine delim

def validateCodeBlocks (lines : List String) : List ValidationIssue :=
  let (issues, st) := validateCodeBlocksGo lines 0 false 0 ""
  issues ++ (if st.1 then [blockUnclosedIssue st.2 (lines.getD st.2 "")] else [])

/-- Cell count of a table row: the number of matches of `\|[^|]*`, which is
the number of `|` characters in the line. -/
def tableCellsCount (line : String) : Nat :=
  (line.toList.filter (fun c => c = '|')).length

def tableColumnsIssue (i expected got : Nat) (line : String) : ValidationIssue :=
  { id := "SYNTAX-TABLE-COLUMNS-" ++ natToStr (i + 1)
    type := IssueType.SYNTAX
    location := { line := some (i + 1) }
    issue := "Несоответствие количества ячеек в строке таблицы. Ожидалось "
      ++ natToStr expected ++ ", получено " ++ natToStr got ++ "."
    original_content := some line }

def tableUnclosedIssue (startLine : Nat) (startContent : String) : ValidationIssue :=
  { id := "SYNTAX-TABLE-UNCLOSED-" ++ natToStr (startLine + 1)
    type := IssueType.SYNTAX
    location := { line := some (startLine + 1) }
    issue := "Незакрытая таблица."
    original_content := some startContent }

def validateTablesGo :
    List String → Nat → Bool → Nat → Nat → List ValidationIssue × (Bool × Nat)
  | [], _, inTable, startLine, _ => ([], (inTable, startLine))
  | line :: rest, i, inTable, startLine, columns =>
    if pyStartswith line "|===" && !inTable then
      validateTablesGo rest (i + 1) true i 0
    else if inTable && pyStartswith line "|" then
      let cells := tableCellsCount line
      if columns = 0 then validateTablesGo rest (i + 1) inTable startLine cells
      else if cells ≠ columns then
        let (issues, st) := validateTablesGo rest (i + 1) inTable startLine columns
        (tableColumnsIssue i columns cells line :: issues, st)
      else validateTablesGo rest (i + 1) inTable startLine columns
    else if pyStartswith line "|===" && inTable then
      validateTablesGo rest (i + 1) false startLine 0
    else validateTablesGo rest (i + 1) inTable startLine columns

def validateTables (lines : List String) : List ValidationIssue :=
  let (issues, st) := validateTablesGo lines 0 false 0 0
  issues ++ (if st.1 then [tableUnclosedIssue st.2 (lines.getD st.2 "")] else [])

/-! ## `CodeDocumentationMatcher` (`code_documentation_matcher.py`) -/

def findFirstSome : List α → (α → Option β) → Option β
  | [], _ => none
  | x :: xs, f =>
    match f x with
    | some b => some b
    | none => findFirstSome xs f

/-- `m.group(1)` of `re.search(re, s)`. -/
def searchGroup1 (re : RE) (s : String) : Option String :=
  match reSearch re s with
  | some (_, _, caps) => capStr s.toList caps 1
  | none => none

/-- `['`\"]?` -/
def quoteOpt : RE := .opt (oneOfC ['\'', '`', '"']) true

/-- `r"(?:класса|class|модуля|module)\s+['`\"]?(\w+)['`\"]?"` (IGNORECASE). -/
def classTitleRE : RE := RE.cat [
  RE.alts [RE.litI "класса", RE.litI "class", RE.litI "модуля", RE.litI "module"],
  RE.plus wsC, quoteOpt, RE.group 1 (RE.plus wordC), quoteOpt]

/-- `r"(?:класс|class)\s+['`\"]?(\w+)['`\"]?"` (IGNORECASE). -/
def classContentRE : RE := RE.cat [
  RE.alts [RE.litI "класс", RE.litI "class"],
  RE.plus wsC, quoteOpt, RE.group 1 (RE.plus wordC), quoteOpt]

/-- `r"(?:класса|class)\s+['`\"]?(\w+)['`\"]?"` (IGNORECASE). -/
def classShortTitleRE : RE := RE.cat [
  RE.alts [RE.litI "класса", RE.litI "class"],
  RE.plus wsC, quoteOpt, RE.group 1 (RE.plus wordC), quoteOpt]

/-- `r"```\w*\s*(?:public\s+)?class\s+(\w+)"` (IGNORECASE). -/
def classCodeBlockRE : RE := RE.cat [
  RE.lit "```", .star wordC true, .star wsC true,
  .opt (RE.cat [RE.litI "public", RE.plus wsC]) true,
  RE.litI "class", RE.plus wsC, RE.group 1 (RE.plus wordC)]

/-! The five steps of `CodeDocumentationMatcher._extract_class_name`
(single-file variant), in source order: document-title phrasing, phrasing in
the first section's content, a class declaration inside a fenced code block,
the capitalized first word of the document title, phrasing in any section
title. -/

def classNameStepTitle (doc : DocStructure) : Option String :=
  searchGroup1 classTitleRE (doc.meta_title.getD "")

def classNameStepFirstSection (doc : DocStructure) : Option String :=
  match doc.sections with
  | first :: _ => searchGroup1 classContentRE first.content
  | [] => none

def classNameStepCodeBlock (doc : DocStructure) : Option String :=
  findFirstSome doc.sections (fun sec => searchGroup1 classCodeBlockRE sec.content)

def classNameStepTitleWord (doc : DocStructure) : Option String :=
  let title := doc.meta_title.getD ""
  if title ≠ "" then
    match pySplitWs title with
    | w :: _ => if w ≠ "" && pyIsUpperAlpha (w.toList.headD ' ') then some w else none
    | [] => none
  else none

def classNameStepSectionTitle (doc : DocStructure) : Option String :=
  findFirstSome doc.sections (fun sec => searchGroup1 classShortTitleRE sec.title)

/-- `CodeDocumentationMatcher._extract_class_name`: the single-file cascade,
ending in the hardcoded `"Calculator"` fallback. -/
def extractClassNameSingle (doc : DocStructure) : Option String :=
  match classNameStepTitle doc with
  | some n => some n
  | none =>
  match classNameStepFirstSection doc with
  | some n => some n
  | none =>
  match classNameStepCodeBlock doc with
  | some n => some n
  | none =>
  match classNameStepTitleWord doc with
  | some n => some n
  | none =>
  match classNameStepSectionTitle doc with
  | some n => some n
  | none => some "Calculator"

/-! ### Method extraction from documentation -/

structure MethodPattern where
  regex : RE
  apply_to : String

/-- `_get_method_patterns` (each compiled with IGNORECASE at the use site).
The fourth is `r"(?:public|private|protected|static|\s)+[\w\<\>\[\]]+\s+(\w+)\s*\([^\)]*\)"`. -/
def methodPatterns : List MethodPattern := [
  ⟨RE.cat [RE.litI "Метод", RE.plus wsC, RE.group 1 (RE.plus wordC)], "title"⟩,
  ⟨RE.cat [RE.litI "Method", RE.plus wsC, RE.group 1 (RE.plus wordC)], "title"⟩,
  ⟨RE.cat [.bol, RE.group 1 (RE.plus wordC), .eol], "title"⟩,
  ⟨RE.cat [
    RE.plus (RE.alts [RE.litI "public", RE.litI "private", RE.litI "protected",
      RE.litI "static", wsC]),
    RE.plus (RE.alts [wordC, RE.chr '<', RE.chr '>', RE.chr '[', RE.chr ']']),
    RE.plus wsC, RE.group 1 (RE.plus wordC), .star wsC true, RE.chr '(',
    .star (noneOfC [')']) true, RE.chr ')'], "content"⟩]

/-- `r"^\w+$"` -/
def wordOnlyRE : RE := RE.cat [.bol, RE.plus wordC, .eol]

/-- `r"(?:def|function|public|private|protected)\s+(\w+)\s*\("` -/
def sigSearchRE : RE := RE.cat [
  RE.alts [RE.lit "def", RE.lit "function", RE.lit "public", RE.lit "private",
    RE.lit "protected"],
  RE.plus wsC, RE.group 1 (RE.plus wordC), .star wsC true, RE.chr '(']

/-- `_identify_method_section`. -/
def identifyMethodSection (sec : DocSection) (patterns : List MethodPattern) :
    Bool × Option String :=
  let title := sec.title
  let content := sec.content
  let normTitle := pyReplace title "\\_" "_"
  if (reMatchStr wordOnlyRE normTitle).isSome
      && pyIsLowerAlpha (normTitle.toList.headD ' ') then
    (true, some normTitle)
  else
    match findFirstSome patterns (fun p =>
        let haystack := if p.apply_to = "title" then normTitle else content
        searchGroup1 p.regex haystack) with
    | some m => (true, some (pyReplace m "\\_" "_"))
    | none =>
      if pyContains content "@param" || pyContains content "@return"
          || pyContains content "@throws" then
        match searchGroup1 sigSearchRE content with
        | some n => (true, some n)
        | none => (false, none)
      else (false, none)

def serviceNames : List String := [
  "введение", "introduction", "описание", "description",
  "обзор", "overview", "установка", "installation",
  "конфигурация", "configuration", "примеры", "examples",
  "использование", "usage", "заключение", "conclusion"]

/-- `r"(def\s+\w+\(|function\s+\w+\(|public\s+\w+\s+\w+\()"` -/
def serviceSigRE : RE := RE.alts [
  RE.cat [RE.lit "def", RE.plus wsC, RE.plus wordC, RE.chr '('],
  RE.cat [RE.lit "function", RE.plus wsC, RE.plus wordC, RE.chr '('],
  RE.cat [RE.lit "public", RE.plus wsC, RE.plus wordC, RE.plus wsC, RE.plus wordC,
    RE.chr '(']]

/-- `_is_service_section`. -/
def isServiceSection (methodName : String) (sec : DocSection) : Bool :=
  if serviceNames.contains (pyLower methodName) then true
  else
    let content := sec.content
    let hasSig := (reSearch serviceSigRE content).isSome
    let hasBlock := pyContains content "```" || pyContains content "----"
    if !hasSig && !hasBlock && methodName.length < 3 then true else false

def containerTitles : List String := [
  "Методы класса", "Методы", "Methods", "Class Methods",
  "API", "API Reference", "Функции", "Functions"]

/-- `_find_methods_container_sections`. -/
def findMethodsContainerSections (doc : DocStructure) : List DocSection :=
  doc.sections.filter (fun sec =>
    let title := pyStrip sec.title
    containerTitles.contains title
      || ["метод", "method", "function", "API"].any (fun c =>
            pyContains (pyLower title) (pyLower c)))

/-- `_is_child_section`. -/
def isChildSection (sec parent : DocSection) : Bool :=
  if sec.level ≤ parent.level then false
  else sec.line_number.getD 0 > parent.line_number.getD 0

/-- `r"^(Метод|Method|Функция|Function)\s+"` (IGNORECASE). -/
def methodTitleStripRE : RE := RE.cat [.bol,
  RE.group 1 (RE.alts [RE.litI "Метод", RE.litI "Method", RE.litI "Функция",
    RE.litI "Function"]),
  RE.plus wsC]

/-- `r"\\([*_`])"` -/
def unescapeMarkRE : RE := RE.cat [RE.chr '\\', RE.group 1 (oneOfC ['*', '_', '`'])]

/-- `r"\s{2,}"` -/
def multiWsRE : RE := RE.cat [wsC, RE.plus wsC]

/-- `_clean_method_title`. -/
def cleanMethodTitle (title : String) : String :=
  let c1 := pyStrip (reSub methodTitleStripRE (fun _ _ => "") title)
  let c2 := reSub unescapeMarkRE (fun cs caps => (capStr cs caps 1).getD "") c1
  reSub multiWsRE (fun _ _ => " ") c2

/-! ### Parameter extraction from documentation sections -/

structure DocParamRec where
  name : Option String := none
  type : Option String := none
  required : Option Bool := none
  description : Option String := none
  doc_line : Option Nat := none
  section_ : Option String := none
deriving DecidableEq

/-- `[\w<>[\]]` -/
def typeCharC : RE := .cls (fun c => isWordChar c || c = '<' || c = '>' || c = '[' || c = ']')

/-- The `type_patterns` of `_process_parameter` (IGNORECASE). -/
def typePatterns : List RE := [
  RE.cat [RE.chr '(', RE.group 1 (RE.plus typeCharC), RE.chr ')'],
  RE.cat [RE.litI "типа", RE.plus wsC, RE.group 1 (RE.plus typeCharC)],
  RE.cat [RE.litI "of", RE.plus wsC, RE.litI "type", RE.plus wsC,
    RE.group 1 (RE.plus typeCharC)],
  RE.cat [RE.chr ':', RE.plus wsC, RE.group 1 (RE.plus typeCharC)]]

def optionalMarkers : List String :=
  ["необязательн", "optional", "может отсутствовать", "may be null", "may be omitted"]

/-- `_process_parameter`. -/
def processParameter (paramName paramDesc : String) (sec : DocSection) : DocParamRec :=
  let name := pyStripChars paramName ['`', '\'', '"']
  let paramType := findFirstSome typePatterns (fun re => searchGroup1 re paramDesc)
  let required := !(optionalMarkers.any (fun m => pyContains (pyLower paramDesc) (pyLower m)))
  { name := some name, type := paramType, required := some required,
    description := some (pyStrip paramDesc), doc_line := sec.line_number,
    section_ := some sec.title }

/-- `r"\*Параметры:\*\s*(.*?)(?=\*|\Z)"` (DOTALL, IGNORECASE). -/
def paramMarkerRuRE : RE := RE.cat [RE.chr '*', RE.litI "Параметры:", RE.chr '*',
  .star wsC true, RE.group 1 (.star dotAllC false), .look (RE.alts [RE.chr '*', .eos])]

/-- `r"\*Parameters:\*\s*(.*?)(?=\*|\Z)"` (DOTALL, IGNORECASE). -/
def paramMarkerEnRE : RE := RE.cat [RE.chr '*', RE.litI "Parameters:", RE.chr '*',
  .star wsC true, RE.group 1 (.star dotAllC false), .look (RE.alts [RE.chr '*', .eos])]

/-- `r"Parameters:\s*(.*?)(?=\n\n|\Z)"` (DOTALL, IGNORECASE). -/
def paramMarkerPlainRE : RE := RE.cat [RE.litI "Parameters:",
  .star wsC true, RE.group 1 (.star dotAllC false), .look (RE.alts [RE.lit "\n\n", .eos])]

/-- The `param_formats` list of `_extract_parameters_from_section`:
`\*\s*`([^`]+)`\s*—\s*([^*\n]+)`, then with `-`, then `\*\s*([^:]+):\s*([^*\n]+)`,
then `-\s*`([^`]+)`\s*[:-]\s*([^-\n]+)`, then `\*\s*([^:\s]+)\s*[:-]\s*([^*\n]+)`. -/
def paramFormatREs : List RE := [
  RE.cat [RE.chr '*', .star wsC true, RE.chr '`', RE.group 1 (RE.plus (noneOfC ['`'])),
    RE.chr '`', .star wsC true, RE.chr '—', .star wsC true,
    RE.group 2 (RE.plus (noneOfC ['*', '\n']))],
  RE.cat [RE.chr '*', .star wsC true, RE.chr '`', RE.group 1 (RE.plus (noneOfC ['`'])),
    RE.chr '`', .star wsC true, RE.chr '-', .star wsC true,
    RE.group 2 (RE.plus (noneOfC ['*', '\n']))],
  RE.cat [RE.chr '*', .star wsC true, RE.group 1 (RE.plus (noneOfC [':'])), RE.chr ':',
    .star wsC true, RE.group 2 (RE.plus (noneOfC ['*', '\n']))],
  RE.cat [RE.chr '-', .star wsC true, RE.chr '`', RE.group 1 (RE.plus (noneOfC ['`'])),
    RE.chr '`', .star wsC true, oneOfC [':', '-'], .star wsC true,
    RE.group 2 (RE.plus (noneOfC ['-', '\n']))],
  RE.cat [RE.chr '*', .star wsC true,
    RE.group 1 (RE.plus (.cls (fun c => !(c = ':' || pySpaceB c)))), .star wsC true,
    oneOfC [':', '-'], .star wsC true, RE.group 2 (RE.plus (noneOfC ['*', '\n']))]]

/-- `r"@param\s+(\w+)\s+([^\n@]*)"` -/
def paramJavadocRE : RE := RE.cat [RE.lit "@param", RE.plus wsC,
  RE.group 1 (RE.plus wordC), RE.plus wsC,
  RE.group 2 (.star (noneOfC ['\n', '@']) true)]

/-- `r"```[^\n]*\n(.*?)```"` (DOTALL). -/
def mdCodeBlockRE : RE := RE.cat [RE.lit "```", .star (noneOfC ['\n']) true, RE.chr '\n',
  RE.group 1 (.star dotAllC false), RE.lit "```"]

/-- `r"\w+\s+\w+\s*\((.*?)\)"` -/
def sigParamsRE : RE := RE.cat [RE.plus wordC, RE.plus wsC, RE.plus wordC, .star wsC true,
  RE.chr '(', RE.group 1 (.star dotC false), RE.chr ')']

/-- `_extract_parameters_from_section`. -/
def extractParametersFromSection (sec : DocSection) : List DocParamRec :=
  let content := sec.content
  let fromMarkers :=
    [paramMarkerRuRE, paramMarkerEnRE, paramMarkerPlainRE].flatMap (fun marker =>
      match searchGroup1 marker content with
      | none => []
      | some paramsText =>
        ((findFirstSome paramFormatREs (fun f =>
            let blocks := reFindall2 f paramsText
            if blocks.isEmpty then none else some blocks)).getD []).map
          (fun nd => processParameter nd.1 nd.2 sec))
  let withJavadoc :=
    fromMarkers ++ (reFindall2 paramJavadocRE content).map
      (fun nd => processParameter nd.1 nd.2 sec)
  if !withJavadoc.isEmpty then withJavadoc
  else
    (reFindall1 mdCodeBlockRE content).flatMap (fun block =>
      match searchGroup1 sigParamsRE block with
      | none => []
      | some paramStr =>
        if pyStrip paramStr ≠ "" then
          (pySplitChar paramStr ',').flatMap (fun piece =>
            let p := pyStrip piece
            if p ≠ "" then
              match pySplitWs p with
              | ptype :: pname :: _ =>
                [{ name := some (pyStrip pname), type := some ptype,
                   required := some true, description := some "",
                   doc_line := sec.line_number, section_ := some sec.title }]
              | _ => []
            else [])
        else [])

structure DocMethodRec where
  doc_line : Option Nat := none
  section_ : Option String := none
  parameters : List DocParamRec := []
deriving DecidableEq

/-- `_extract_doc_methods`. -/
def extractDocMethods (doc : DocStructure) : List (String × DocMethodRec) :=
  let className := extractClassNameSingle doc
  let containers := findMethodsContainerSections doc
  let candidates :=
    if !containers.isEmpty then
      containers.flatMap (fun c => c :: doc.sections.filter (fun s => isChildSection s c))
    else doc.sections
  candidates.foldl (fun methods sec =>
    let cleanedTitle := cleanMethodTitle sec.title
    let secCopy := { sec with title := cleanedTitle }
    let idd := identifyMethodSection secCopy methodPatterns
    match idd.2 with
    | some name =>
      if idd.1 && name ≠ "" then
        if isServiceSection name sec then methods
        else
          let fullName :=
            match className with
            | some cn => if cn ≠ "" then cn ++ "." ++ name else name
            | none => name
          dictInsert methods fullName
            { doc_line := sec.line_number, section_ := some sec.title,
              parameters := extractParametersFromSection sec }
      else methods
    | none => methods) []

/-! ### Method extraction from code -/

/-- `r"^__.*__$"` -/
def ignoredDunderRE : RE := RE.cat [.bol, RE.lit "__", .star dotC true, RE.lit "__", .eol]

/-- `r"^_.*"` -/
def ignoredUnderscoreRE : RE := RE.cat [.bol, RE.chr '_', .star dotC true]

def isIgnoredMethodName (name : String) : Bool :=
  (reMatchStr ignoredDunderRE name).isSome || (reMatchStr ignoredUnderscoreRE name).isSome

structure CodeMethodRec where
  class_name : Option String := none
  line_start : Nat
  line_end : Nat
  method : MethodInfo
deriving DecidableEq

/-- `_extract_code_methods`. -/
def extractCodeMethods (cs : CodeStructure) : List (String × CodeMethodRec) :=
  let withClasses := cs.classes.foldl (fun methods cls =>
    cls.methods.foldl (fun methods m =>
      if isIgnoredMethodName m.name then methods
      else dictInsert methods (cls.name ++ "." ++ m.name)
        { class_name := some cls.name, line_start := m.line_start,
          line_end := m.line_end, method := m }) methods) []
  cs.functions.foldl (fun methods f =>
    if isIgnoredMethodName f.name then methods
    else dictInsert methods f.name
      { class_name := none, line_start := f.line_start, line_end := f.line_end,
        method := f }) withClasses

/-- `find_undocumented_methods`. -/
def findUndocumentedMethods (cs : CodeStructure) (doc : DocStructure) :
    List ValidationIssue :=
  let codeMethods := extractCodeMethods cs
  let docMethods := extractDocMethods doc
  codeMethods.foldl (fun issues nm =>
    if !dictContains docMethods nm.1 then
      issues ++ [{
        id := "COMPLETENESS-METHOD-001-" ++ natToStr (issues.length + 1),
        type := IssueType.COMPLETENESS,
        location := { section_ := doc.meta_title },
        issue := "Метод '" ++ nm.1 ++ "' не описан в документации" }]
    else issues) []

/-- `find_documented_but_missing_methods`. -/
def findDocumentedButMissingMethods (cs : CodeStructure) (doc : DocStructure) :
    List ValidationIssue :=
  let codeMethods := extractCodeMethods cs
  let docMethods := extractDocMethods doc
  docMethods.foldl (fun issues nm =>
    if !dictContains codeMethods nm.1 then
      issues ++ [{
        id := "SEMANTIC-METHOD-001-" ++ natToStr (issues.length + 1),
        type := IssueType.SEMANTIC,
        location := { line := nm.2.doc_line, section_ := nm.2.section_ },
        issue := "Метод '" ++ nm.1 ++ "' описан в документации, но отсутствует в коде. "
          ++ "Возможно, это устаревшая документация или ошибка генерации LLM." }]
    else issues) []

/-! ### Parameter matching -/

/-- Polymorphic-key dict helpers for parameter dicts (the documentation side
may key by `None` when a parameter record lacks a name). -/
def alookupK [DecidableEq κ] (l : List (κ × α)) (k : κ) : Option α :=
  (l.find? (fun p => p.1 = k)).map (fun p => p.2)

def dictContainsK [DecidableEq κ] (l : List (κ × α)) (k : κ) : Bool :=
  (l.find? (fun p => p.1 = k)).isSome

def dictInsertK [DecidableEq κ] (l : List (κ × α)) (k : κ) (v : α) : List (κ × α) :=
  if dictContainsK l k then l.map (fun p => if p.1 = k then (k, v) else p)
  else l ++ [(k, v)]

/-- `match_parameters`. -/
def matchParameters (method : MethodInfo) (docParameters : List DocParamRec) :
    List ValidationIssue :=
  let methodParams : List (Option String × ParameterInfo) :=
    method.parameters.foldl (fun d p => dictInsertK d (some p.name) p) []
  let docParams : List (Option String × DocParamRec) :=
    docParameters.foldl (fun d p => dictInsertK d p.name p) []
  let issues := methodParams.foldl (fun issues kp =>
    let paramName := fmtOptStr kp.1
    let p := kp.2
    match alookupK docParams kp.1 with
    | none =>
      issues ++ [{
        id := "COMPLETENESS-PARAM-001-" ++ natToStr (issues.length + 1),
        type := IssueType.COMPLETENESS,
        location := { line := some method.line_start,
                      section_ := some ("Method " ++ method.name) },
        issue := "Параметр '" ++ paramName ++ "' метода '" ++ method.name
          ++ "' не описан в документации" }]
    | some docp =>
      let issues :=
        if optTruthy p.type && optTruthy docp.type && p.type ≠ docp.type then
          issues ++ [{
        id := "SEMANTIC-PARAM-001-" ++ natToStr (issues.length + 1),
            type := IssueType.SEMANTIC,
            location := { line := docp.doc_line, section_ := docp.section_ },
            issue := "Несоответствие типа параметра '" ++ paramName ++ "' метода '"
              ++ method.name ++ "': в коде - " ++ fmtOptStr p.type
              ++ ", в документации - " ++ fmtOptStr docp.type }]
        else issues
      let docRequired := docp.required.getD true
      if p.required ≠ docRequired then
        issues ++ [{
        id := "SEMANTIC-PARAM-002-" ++ natToStr (issues.length + 1),
          type := IssueType.SEMANTIC,
          location := { line := docp.doc_line, section_ := docp.section_ },
          issue := "Несоответствие обязательности параметра '" ++ paramName
            ++ "' метода '" ++ method.name ++ "': в коде - " ++ fmtBoolRu p.required
            ++ ", в документации - " ++ fmtBoolRu docRequired }]
      else issues) []
  docParams.foldl (fun issues kp =>
    if !dictContainsK methodParams kp.1 then
      issues ++ [{
        id := "SEMANTIC-PARAM-003-" ++ natToStr (issues.length + 1),
        type := IssueType.SEMANTIC,
        location := { line := kp.2.doc_line, section_ := kp.2.section_ },
        issue := "Параметр '" ++ fmtOptStr kp.1 ++ "' метода '" ++ method.name
          ++ "' описан в документации, но отсутствует в коде. Возможно, это устаревшая"
          ++ " документация или ошибка генерации LLM." }]
    else issues) issues

/-! ### Endpoint extraction and matching -/

structure CodeEndpointRec where
  http_method : Option String := none
  method_name : String
  class_name : Option String := none
  line_start : Nat
  line_end : Nat
  method : MethodInfo
deriving DecidableEq

structure DocEndpointRec where
  http_method : Option String := none
  doc_line : Option Nat := none
  section_ : Option String := none
  parameters : List DocParamRec := []
deriving DecidableEq

/-- `_extract_code_endpoints`. -/
def extractCodeEndpoints (cs : CodeStructure) : List (String × CodeEndpointRec) :=
  let fromClasses := cs.classes.foldl (fun endpoints cls =>
    if cls.is_controller then
      let basePath := cls.annotations.foldl (fun basePath ann =>
        if ["RequestMapping", "Controller", "RestController"].contains ann.name
            && (match ann.parameters with | some ps => !ps.isEmpty | none => false) then
          match ann.parameters with
          | some ps =>
            match alookup ps "value" with
            | some v => pyStripChars v ['"']
            | none =>
              match alookup ps "path" with
              | some v => pyStripChars v ['"']
              | none => basePath
          | none => basePath
        else basePath) ""
      cls.methods.foldl (fun endpoints m =>
        if m.is_api_endpoint && optTruthy m.path then
          let p := m.path.getD ""
          let fullPath := if basePath ≠ "" then basePath ++ p else p
          dictInsert endpoints fullPath
            { http_method := m.http_method, method_name := m.name,
              class_name := some cls.name, line_start := m.line_start,
              line_end := m.line_end, method := m }
        else endpoints) endpoints
    else endpoints) []
  cs.functions.foldl (fun endpoints f =>
    if f.is_api_endpoint && optTruthy f.path then
      dictInsert endpoints (f.path.getD "")
        { http_method := f.http_method, method_name := f.name, class_name := none,
          line_start := f.line_start, line_end := f.line_end, method := f }
    else endpoints) fromClasses

/-- `_extract_doc_endpoints`. -/
def extractDocEndpoints (doc : DocStructure) : List (String × DocEndpointRec) :=
  doc.sections.foldl (fun endpoints sec =>
    if sec.path.isSome || sec.url.isSome then
      match pyOrOptStr sec.path sec.url with
      | some p =>
        if p ≠ "" then
          let titleU := pyUpper sec.title
          let httpMethod :=
            if pyContains titleU "GET" then some "GET"
            else if pyContains titleU "POST" then some "POST"
            else if pyContains titleU "PUT" then some "PUT"
            else if pyContains titleU "DELETE" then some "DELETE"
            else if pyContains titleU "PATCH" then some "PATCH"
            else none
          let parameters := sec.subsections.flatMap (fun ps =>
            if pyContains (pyLower ps.title) "parameters" then
              ps.params.map (fun param =>
                ({ name := param.name, type := param.type,
                   required := some (param.required.getD true),
                   description := param.description,
                   doc_line := param.line, section_ := some ps.title } : DocParamRec))
            else [])
          dictInsert endpoints p
            { http_method := httpMethod, doc_line := sec.line_number,
              section_ := some sec.title, parameters := parameters }
        else endpoints
      | none => endpoints
    else endpoints) []

/-- `match_api_endpoints`. -/
def matchApiEndpoints (cs : CodeStructure) (doc : DocStructure) : List ValidationIssue :=
  let codeEndpoints := extractCodeEndpoints cs
  let docEndpoints := extractDocEndpoints doc
  let issues := codeEndpoints.foldl (fun issues pe =>
    let path := pe.1
    let info := pe.2
    match alookup docEndpoints path with
    | none =>
      issues ++ [{
        id := "SEMANTIC-API-001-" ++ natToStr (issues.length + 1),
        type := IssueType.SEMANTIC,
        location := { line := some info.line_start, section_ := doc.meta_title },
        issue := "API-эндпоинт '" ++ path ++ "' (" ++ fmtOptStr info.http_method
          ++ ") не описан в документации" }]
    | some docInfo =>
      let issues :=
        if info.http_method ≠ docInfo.http_method then
          issues ++ [{
        id := "SEMANTIC-API-002-" ++ natToStr (issues.length + 1),
            type := IssueType.SEMANTIC,
            location := { line := docInfo.doc_line, section_ := docInfo.section_ },
            issue := "Несоответствие HTTP-метода для API-эндпоинта '" ++ path
              ++ "': в коде - " ++ fmtOptStr info.http_method ++ ", в документации - "
              ++ fmtOptStr docInfo.http_method }]
        else issues
      issues ++ matchParameters info.method docInfo.parameters) []
  docEndpoints.foldl (fun issues pe =>
    if !dictContains codeEndpoints pe.1 then
      issues ++ [{
        id := "SEMANTIC-API-003-" ++ natToStr (issues.length + 1),
        type := IssueType.SEMANTIC,
        location := { line := pe.2.doc_line, section_ := pe.2.section_ },
        issue := "API-эндпоинт '" ++ pe.1 ++ "' (" ++ fmtOptStr pe.2.http_method
          ++ ") описан в документации, но отсутствует в коде. "
          ++ "Возможно, это устаревшая документация или ошибка генерации LLM." }]
    else issues) issues

/-! ## `SyntaxValidator`: lists, links, asciidoctor step, `validate` -/

/-- `r"^\s*[\*\-]\s+\S+"` -/
def ulItemRE : RE := RE.cat [.bol, .star wsC true, oneOfC ['*', '-'], RE.plus wsC,
  RE.plus (.cls (fun c => !pySpaceB c))]

/-- `r"^\s*\d+\.\s+\S+"` -/
def olItemRE : RE := RE.cat [.bol, .star wsC true, RE.plus digitC, RE.chr '.',
  RE.plus wsC, RE.plus (.cls (fun c => !pySpaceB c))]

def listMixedIssue (i startLine : Nat) (line : String) (startedUl : Bool) : ValidationIssue :=
  { id := "SYNTAX-LIST-MIXED-" ++ natToStr (i + 1)
    type := IssueType.SYNTAX
    location := { line := some (i + 1) }
    issue :=
      if startedUl then
        "Смешивание типов списков. Маркированный список начат на строке "
          ++ natToStr (startLine + 1) ++ ", а нумерованный на строке " ++ natToStr (i + 1) ++ "."
      else
        "Смешивание типов списков. Нумерованный список начат на строке "
          ++ natToStr (startLine + 1) ++ ", а маркированный на строке " ++ natToStr (i + 1) ++ "."
    original_content := some line }

/-- `_validate_lists`. -/
def validateListsGo : List String → Nat → Bool → Option String → Nat → List ValidationIssue
  | [], _, _, _, _ => []
  | line :: rest, i, inList, listType, startLine =>
    let stripped := pyStrip line
    if (reMatchStr ulItemRE stripped).isSome && !inList then
      validateListsGo rest (i + 1) true (some "ul") i
    else if (reMatchStr olItemRE stripped).isSome && !inList then
      validateListsGo rest (i + 1) true (some "ol") i
    else if inList && listType = some "ul" && (reMatchStr olItemRE stripped).isSome then
      listMixedIssue i startLine line true :: validateListsGo rest (i + 1) inList listType startLine
    else if inList && listType = some "ol" && (reMatchStr ulItemRE stripped).isSome then
      listMixedIssue i startLine line false :: validateListsGo rest (i + 1) inList listType startLine
    else if inList && stripped = "" then
      validateListsGo rest (i + 1) false none startLine
    else validateListsGo rest (i + 1) inList listType startLine

def validateLists (lines : List String) : List ValidationIssue :=
  validateListsGo lines 0 false none 0

/-- `r"\[\[(.+?)\]\]"` -/
def anchorDeclRE : RE := RE.cat [RE.lit "[[", RE.group 1 (RE.plusL dotC), RE.lit "]]"]

/-- `r"<<(.+?)>>"` -/
def internalLinkRE : RE := RE.cat [RE.lit "<<", RE.group 1 (RE.plusL dotC), RE.lit ">>"]

/-- `r"(https?://[^\s\[\]]+)"` -/
def externalLinkRE : RE := RE.cat [RE.group 1 (RE.cat [RE.lit "http",
  .opt (RE.chr 's') true, RE.lit "://",
  RE.plus (.cls (fun c => !(pySpaceB c || c = '[' || c = ']')))])]

/-- Python `set.add` modelled on an insertion-ordered duplicate-free list. -/
def setAdd [DecidableEq α] (l : List α) (x : α) : List α :=
  if l.contains x then l else l ++ [x]

/-- The per-line anchor/link collection loop of `_validate_links`. -/
def collectLinksGo : List String → Nat → List String → List String →
    List (String × Nat) → List String × List String × List (String × Nat)
  | [], _, anchors, links, ext => (anchors, links, ext)
  | line :: rest, i, anchors, links, ext =>
    let anchors := (reFindall1 anchorDeclRE line).foldl setAdd anchors
    let links := (reFindall1 internalLinkRE line).foldl (fun links link =>
      if pyContains link "," then
        setAdd links (pyStrip ((pySplitChar link ',').headD ""))
      else setAdd links link) links
    let ext := (reFindall1 externalLinkRE line).foldl (fun ext link =>
      setAdd ext (link, i)) ext
    collectLinksGo rest (i + 1) anchors links ext

/-- The broken-internal-link reporting loop: the first line containing the
literal `<<link>>` text carries the issue; if no line does, no issue is
reported. -/
def brokenLinkIssue (lines : List String) (link : String) : List ValidationIssue :=
  match (lines.enum.find? (fun li => pyContains li.2 ("<<" ++ link ++ ">>"))) with
  | some (i, line) => [{
      id := "SYNTAX-LINK-BROKEN-" ++ natToStr (i + 1),
      type := IssueType.SYNTAX,
      location := { line := some (i + 1) },
      issue := "Ссылка на несуществующий якорь: '" ++ link ++ "'.",
      original_content := some line }]
  | none => []

structure SvRules where
  check_external_links : Option Bool := none
deriving DecidableEq

/-- The environment of effects a validator run consumes: the result of the
`asciidoctor` subprocess on the document content, and the result of the
HTTP HEAD reachability probe per URL (`_check_external_link` memoizes the
same mapping). -/
inductive AsciidoctorRun where
  | notInstalled
  | ran (returncode : Int) (stderrLines : List String)

structure SvEnv where
  asciidoctor : String → AsciidoctorRun
  urlOk : String → Bool

/-- `_validate_links`. -/
def validateLinks (env : SvEnv) (rules : SvRules) (content : String) :
    List ValidationIssue :=
  let lines := pySplitlines content
  let collected := collectLinksGo lines 0 [] [] []
  let anchors := collected.1
  let internalLinks := collected.2.1
  let externalLinks := collected.2.2
  let issues := internalLinks.foldl (fun issues link =>
    if !anchors.contains link then issues ++ brokenLinkIssue lines link
    else issues) []
  if rules.check_external_links.getD true then
    externalLinks.foldl (fun issues li =>
      if !env.urlOk li.1 then
        issues ++ [{
          id := "SYNTAX-LINK-EXTERNAL-" ++ natToStr (li.2 + 1),
          type := IssueType.SYNTAX,
          location := { line := some (li.2 + 1) },
          issue := "Недоступная внешняя ссылка: '" ++ li.1 ++ "'.",
          original_content := some (lines.getD li.2 "") }]
      else issues) issues
  else issues

/-- `_find_section_for_line`. -/
def findSectionForLine (content : String) (lineNum : Nat) : Option String :=
  let lines := pySplitlines content
  (lines.enum.foldl (fun current li =>
    if li.1 + 1 > lineNum then current
    else if pyStartswith li.2 "=" then some (pyStrip (pyLstripChars li.2 ['=', ' ']))
    else current) none)

/-- `_get_line_content`. -/
def getLineContent (content : String) (lineNum : Nat) : Option String :=
  let lines := pySplitlines content
  if 0 < lineNum && lineNum ≤ lines.length then some (lines.getD (lineNum - 1) "")
  else none

/-- `r"line (\d+):(.*)"` -/
def asciidoctorErrRE : RE := RE.cat [RE.lit "line ", RE.group 1 (RE.plus digitC),
  RE.chr ':', RE.group 2 (.star dotC true)]

def natFromDigits (s : String) : Nat :=
  s.toList.foldl (fun n c => n * 10 + (c.toNat - 48)) 0

/-- `_validate_with_asciidoctor`. -/
def validateWithAsciidoctor (env : SvEnv) (content : String) : List ValidationIssue :=
  match env.asciidoctor content with
  | .notInstalled =>
    [{ id := "SYNTAX-ENV-001",
       type := IssueType.SYNTAX,
       location := {},
       issue := "Не удалось выполнить проверку с помощью asciidoctor. "
         ++ "Убедитесь, что asciidoctor установлен." }]
  | .ran returncode stderrLines =>
    if returncode ≠ 0 then
      stderrLines.foldl (fun issues line =>
        match reSearch asciidoctorErrRE line with
        | some (_, _, caps) =>
          let lineNum := natFromDigits ((capStr line.toList caps 1).getD "")
          let errMsg := pyStrip ((capStr line.toList caps 2).getD "")
          issues ++ [{
            id := "SYNTAX-ASCIIDOC-" ++ natToStr lineNum,
            type := IssueType.SYNTAX,
            location := { line := some lineNum,
                          section_ := findSectionForLine content lineNum },
            issue := "Ошибка синтаксиса AsciiDoc: " ++ errMsg,
            original_content := getLineContent content lineNum }]
        | none => issues) []
    else []

/-- `_validate_structure`. -/
def validateStructure (content : String) : List ValidationIssue :=
  let lines := pySplitlines content
  validateHeaders lines ++ validateCodeBlocks lines ++ validateLists lines
    ++ validateTables lines

/-- `SyntaxValidator.validate`. -/
def svValidate (env : SvEnv) (rules : SvRules) (content : String) (_sourcePath : String) :
    List ValidationIssue :=
  validateWithAsciidoctor env content ++ validateStructure content
    ++ validateLinks env rules content

/-! ## `ValidationRuleEngine` (`validation_rule_engine.py`) -/

/-- A section of a parsed document as `_extract_original_content` reads it:
`content` may be a list of lines, a plain string, or anything else. -/
inductive ParsedContent where
  | strList (lines : List String)
  | str (s : String)
  | other
deriving DecidableEq

structure ParsedSection where
  level : Nat := 1
  title : String := ""
  content : ParsedContent := .other
deriving DecidableEq

structure ParsedDoc where
  meta_title : Option String := none
  sections : List ParsedSection := []
deriving DecidableEq

def strJoin (sep : String) : List String → String
  | [] => ""
  | [x] => x
  | x :: xs => x ++ sep ++ strJoin sep xs

/-- `_extract_original_content`. -/
def extractOriginalContent (doc : ParsedDoc) : Option String :=
  if doc.sections.isEmpty then none
  else
    let titleLines :=
      match doc.meta_title with
      | some t => if t ≠ "" then ["= " ++ t, ""] else []
      | none => []
    let sectionLines := doc.sections.flatMap (fun sec =>
      (String.mk (List.replicate sec.level '=') ++ " " ++ sec.title) ::
        (match sec.content with
         | .strList ls => ls
         | .str s => pySplitlines s
         | .other => []))
    some (strJoin "\n" (titleLines ++ sectionLines))

/-- The status-derivation block of `ValidationRuleEngine.validate`, over the
combined issue list before it is split into `issues` and `corrections`. -/
def deriveStatus (allIssues : List ValidationIssue) : ValidationStatus :=
  let issues := allIssues.filter (fun i => !optTruthy i.corrected_content)
  let corrections := allIssues.filter (fun i => optTruthy i.corrected_content)
  if allIssues.isEmpty then .VALID
  else if issues.all (fun i => i.type ≠ IssueType.SYNTAX) then .VALID_WITH_WARNINGS
  else if corrections.length = allIssues.length then .FULLY_CORRECTED
  else if !corrections.isEmpty then .PARTIALLY_CORRECTED
  else .INVALID

/-- The run environment of the rule engine: validator effects plus the fresh
uuid and clock reading used to stamp the report. -/
structure RunEnv where
  sv : SvEnv
  validationId : String
  timestamp : Int

/-- `ValidationRuleEngine.validate` (a freshly constructed engine carries an
empty rules dict, so the syntax validator runs with its defaults). -/
def engineAllIssues (env : RunEnv) (parsedDoc : ParsedDoc) (sourcePath : String) :
    List ValidationIssue :=
  match extractOriginalContent parsedDoc with
  | some content => if content ≠ "" then svValidate env.sv {} content sourcePath else []
  | none => []

def ruleEngineValidate (env : RunEnv) (parsedDoc : ParsedDoc) (sourcePath : String) :
    ValidationReport :=
  let allIssues := engineAllIssues env parsedDoc sourcePath
  let issues := allIssues.filter (fun i => !optTruthy i.corrected_content)
  let corrections := allIssues.filter (fun i => optTruthy i.corrected_content)
  let summary : ValidationSummary :=
    { total_issues := allIssues.length, corrected_issues := corrections.length,
      skipped_issues := 0 }
  { validation_id := env.validationId
    documentation_source := sourcePath
    timestamp := env.timestamp
    issues := issues
    corrections := corrections
    summary := summary
    status := deriveStatus allIssues }

/-! ## `PythonAnalyzer._parse_function`: parameter extraction
(`app/services/analyzers/python_analyzer.py`)

A minimal Python-AST fragment: exactly the node shapes `_parse_function`
inspects when building `ParameterInfo` records. -/

inductive PyExpr where
  | name (id : String)
  | attr (valueId : String) (attrName : String)
  | subscript (valueId : Option String)
  | strLit (s : String)
  | numLit (n : Int)
  | nameConst (v : Option Bool)
  | otherExpr
deriving DecidableEq

structure PyArg where
  arg : String
  annotation : Option PyExpr := none
deriving DecidableEq

structure PyFunctionArgs where
  args : List PyArg := []
  defaults : List PyExpr := []
deriving DecidableEq

/-- The parameter-type extraction from an `arg.annotation` node. -/
def annotationTypeName : PyExpr → Option String
  | .name id => some id
  | .attr v a => some (v ++ "." ++ a)
  | .subscript (some v) => some v
  | _ => none

def intToStr (n : Int) : String :=
  if n < 0 then "-" ++ natToStr (-n).toNat else natToStr n.toNat

/-- The default-value rendering (`ast.Str`/`ast.Num`/`ast.NameConstant`/
`ast.Name`; anything else leaves `default_value = None`). -/
def defaultValueStr : PyExpr → Option String
  | .strLit s => some ("\"" ++ s ++ "\"")
  | .numLit n => some (intToStr n)
  | .nameConst (some true) => some "True"
  | .nameConst (some false) => some "False"
  | .nameConst none => some "None"
  | .name id => some id
  | _ => none

/-- The `ParameterInfo` built for the argument at position `idx`
(`args.index(arg)` resolves to the argument's own position, since `ast.arg`
objects compare by identity).  `none` when the argument is a skipped
`self`/`cls` of a method. -/
def mkParamInfo (funcArgs : PyFunctionArgs) (isMethod : Bool) (idx : Nat) (a : PyArg) :
    Option ParameterInfo :=
  if isMethod && (a.arg = "self" || a.arg = "cls") then none
  else
    let paramType :=
      match a.annotation with
      | some ann => annotationTypeName ann
      | none => none
    let nDef := funcArgs.defaults.length
    let posFromEnd := funcArgs.args.length - idx - 1
    let requiredAndDefault :=
      if !funcArgs.defaults.isEmpty && posFromEnd < nDef then
        (false, match funcArgs.defaults.get? (nDef - posFromEnd - 1) with
                | some d => defaultValueStr d
                | none => none)
      else (true, none)
    some { name := a.arg, type := paramType, required := requiredAndDefault.1,
           default_value := requiredAndDefault.2, annotations := [] }

def parseFunctionParamsGo (funcArgs : PyFunctionArgs) (isMethod : Bool) :
    List PyArg → Nat → List ParameterInfo
  | [], _ => []
  | a :: rest, idx =>
    match mkParamInfo funcArgs isMethod idx a with
    | some p => p :: parseFunctionParamsGo funcArgs isMethod rest (idx + 1)
    | none => parseFunctionParamsGo funcArgs isMethod rest (idx + 1)

/-- The parameter loop of `_parse_function`. -/
def parseFunctionParams (funcArgs : PyFunctionArgs) (isMethod : Bool) :
    List ParameterInfo :=
  parseFunctionParamsGo funcArgs isMethod funcArgs.args 0

/-! ## `ProjectCodeDocumentationMatcher`
(`project_code_documentation_matcher.py`)

File reads (`SourceCodeAnalyzer.analyze_file`) are modelled by an explicit
`analyzeFile` environment function; `none` models an analysis exception,
which Stage 3 of `_find_matching_doc` catches and turns into "not found". -/

/-- `LANGUAGE_EXTENSIONS` of `analyzer_factory.py`. -/
def LANGUAGE_EXTENSIONS : List (LanguageType × List String) := [
  (.JAVA, ["java"]), (.PYTHON, ["py"]), (.JAVASCRIPT, ["js"]),
  (.TYPESCRIPT, ["ts"]), (.CSHARP, ["cs"])]

/-- `detect_language_from_file`. -/
def detectLanguageFromFile (filePath : String) : Option LanguageType :=
  let ext := pyLstripChars (pyLower (splitextExt filePath)) ['.']
  (LANGUAGE_EXTENSIONS.find? (fun le => le.2.contains ext)).map (fun le => le.1)

/-- The `java_patterns` of `_detect_doc_language_from_structure`. -/
def javaKeywordREs : List RE := [
  RE.cat [.wb, RE.lit "public", RE.plus wsC, RE.lit "class", .wb],
  RE.cat [.wb, RE.lit "private", RE.plus wsC, RE.plus wordC, .wb],
  RE.cat [.wb, RE.lit "static", RE.plus wsC, RE.lit "void", RE.plus wsC,
    RE.lit "main", .wb],
  RE.cat [.wb, RE.lit "import", RE.plus wsC, RE.lit "java."],
  RE.cat [RE.chr '@', RE.lit "Override", .wb],
  RE.cat [.wb, RE.lit "String[]", RE.plus wsC, RE.lit "args", .wb]]

/-- The `python_patterns`. -/
def pythonKeywordREs : List RE := [
  RE.cat [.wb, RE.lit "def", RE.plus wsC, RE.plus wordC, RE.chr '('],
  RE.cat [.wb, RE.lit "class", RE.plus wsC, RE.plus wordC, RE.chr ':'],
  RE.cat [.wb, RE.lit "import", RE.plus wsC, RE.plus wordC],
  RE.cat [.wb, RE.lit "from", RE.plus wsC, RE.plus wordC, RE.plus wsC,
    RE.lit "import", .wb],
  RE.cat [RE.lit "__init__", .star wsC true, RE.chr '('],
  RE.cat [RE.lit "self", .star wsC true, RE.chr '.']]

/-- The `js_patterns`. -/
def jsKeywordREs : List RE := [
  RE.cat [.wb, RE.lit "function", RE.plus wsC, RE.plus wordC, RE.chr '('],
  RE.cat [.wb, RE.lit "const", RE.plus wsC, RE.plus wordC, .star wsC true, RE.chr '='],
  RE.cat [.wb, RE.lit "var", RE.plus wsC, RE.plus wordC, .star wsC true, RE.chr '='],
  RE.cat [.wb, RE.lit "let", RE.plus wsC, RE.plus wordC, .star wsC true, RE.chr '='],
  RE.cat [RE.lit "=>", .star wsC true, RE.chr '\x7b'],
  RE.cat [.wb, RE.lit "console.log", RE.chr '(']]

/-- `_detect_doc_language_from_structure`. -/
def detectDocLanguageFromStructure (docPath : String) (doc : DocStructure) :
    Option LanguageType :=
  let preTagged :=
    match doc.detected_language with
    | some dl => if dl ≠ "" then LanguageType.ofValue dl else none
    | none => none
  match preTagged with
  | some lt => some lt
  | none =>
  let filename := pyLower (pyBasename docPath)
  if ["java_", "_java", "java-"].any (fun p => pyContains filename p) then
    some .JAVA
  else if ["py_", "_py", "python_", "_python", "py-"].any
      (fun p => pyContains filename p) then
    some .PYTHON
  else if ["js_", "_js", "javascript_", "_javascript", "js-"].any
      (fun p => pyContains filename p) then
    some .JAVASCRIPT
  else
  match findFirstSome doc.sections (fun sec =>
      let content := sec.content
      if pyContains content "```java" || pyContains content "[source,java]"
          || pyContains content "language=\"java\"" then
        some LanguageType.JAVA
      else if ["```python", "[source,python]", "```py", "language=\"python\""].any
          (fun m => pyContains content m) then
        some LanguageType.PYTHON
      else if ["```javascript", "[source,javascript]", "```js",
          "language=\"javascript\""].any (fun m => pyContains content m) then
        some LanguageType.JAVASCRIPT
      else none) with
  | some lt => some lt
  | none =>
  let allContent := strJoin " " (doc.sections.map (fun s => s.content))
  if javaKeywordREs.any (fun re => (reSearch re allContent).isSome) then
    some .JAVA
  else if pythonKeywordREs.any (fun re => (reSearch re allContent).isSome) then
    some .PYTHON
  else if jsKeywordREs.any (fun re => (reSearch re allContent).isSome) then
    some .JAVASCRIPT
  else none

/-- `_is_language_compatible`. -/
def isLanguageCompatible (codePath docPath : String) (doc : DocStructure) : Bool :=
  match detectLanguageFromFile codePath with
  | none => true
  | some codeLang =>
    match detectDocLanguageFromStructure docPath doc with
    | none => true
    | some docLang => codeLang = docLang

/-- The language markers stripped by `_clean_filename_prefix`. -/
def docNameLeadMarkers : List String := [
  "java_", "py_", "python_", "js_", "javascript_",
  "ts_", "typescript_", "cs_", "csharp_",
  "module_", "class_", "api_"]

def docNameTailMarkers : List String := [
  "_doc", "_docs", "_documentation", "_api", "_spec"]

/-- `_clean_filename_prefix`. -/
def cleanDocBaseName (filename : String) : String :=
  let filenameLower := pyLower filename
  let afterLead :=
    match docNameLeadMarkers.find? (fun p => pyStartswith filenameLower p) with
    | some p => String.mk (filename.toList.drop p.length)
    | none => filename
  let afterLeadLower := pyLower afterLead
  match docNameTailMarkers.find? (fun suf => pyEndswith afterLeadLower suf) with
  | some suf => String.mk (afterLead.toList.take (afterLead.toList.length - suf.length))
  | none => afterLead

/-- `ProjectCodeDocumentationMatcher._extract_class_name` (returns `None`
when nothing is found; no fallback name). -/
def extractClassNameProj (doc : DocStructure) : Option String :=
  match searchGroup1 classTitleRE (doc.meta_title.getD "") with
  | some n => some n
  | none =>
    findFirstSome doc.sections (fun sec =>
      match searchGroup1 classContentRE sec.content with
      | some n => some n
      | none => searchGroup1 classCodeBlockRE sec.content)

/-- The Stage-1 acceptance test of `_find_matching_doc`: the document's
extracted class name is non-empty, equals the code file's class name, and
the languages are compatible. -/
def stage1Hit (codePath className : String) (pd : String × DocStructure) : Bool :=
  match extractClassNameProj pd.2 with
  | some n =>
    if n ≠ "" then
      if n = className then isLanguageCompatible codePath pd.1 pd.2 else false
    else false
  | none => false

/-- Stage 1 of `_find_matching_doc`: first document accepted by
`stage1Hit`, in dict order. -/
def findMatchingDocStage1 (className : String)
    (docStructures : List (String × DocStructure)) (codePath : String) :
    Option (String × DocStructure) :=
  docStructures.find? (fun pd => stage1Hit codePath className pd)

/-- The Stage-2 acceptance test: language-compatible, and the cleaned
documentation file stem equals the code file stem case-insensitively. -/
def stage2Hit (codePath : String) (pd : String × DocStructure) : Bool :=
  let codeBaseName := String.mk (splitextRootAux (pyBasename codePath).toList)
  if isLanguageCompatible codePath pd.1 pd.2 then
    let docBaseName := String.mk (splitextRootAux (pyBasename pd.1).toList)
    pyLower (cleanDocBaseName docBaseName) = pyLower codeBaseName
  else false

/-- Stage 2 of `_find_matching_doc`: first compatible document whose cleaned
file stem matches. -/
def findMatchingDocStage2 (codePath : String)
    (docStructures : List (String × DocStructure)) :
    Option (String × DocStructure) :=
  (docStructures.filter (fun pd => stage2Hit codePath pd)).head?

/-- `_extract_identifiers_from_doc`: the identifier set, in insertion
order. -/
def methodTitleIdRE : RE := RE.alts [
  RE.cat [RE.litI "Метод", RE.plus wsC, RE.group 1 (RE.plus wordC)],
  RE.cat [RE.litI "Method", RE.plus wsC, RE.group 2 (RE.plus wordC)],
  RE.cat [.bol, RE.group 3 (RE.plus wordC), .eol]]

/-- `r"```\w*\s*(.*?)```"` (DOTALL). -/
def codeBlockIdRE : RE := RE.cat [RE.lit "```", .star wordC true, .star wsC true,
  RE.group 1 (.star dotAllC false), RE.lit "```"]

/-- `r"(?:def|function|public|private|protected)?\s*(\w+)\s*\("` -/
def funcIdRE : RE := RE.cat [
  .opt (RE.alts [RE.lit "def", RE.lit "function", RE.lit "public", RE.lit "private",
    RE.lit "protected"]) true,
  .star wsC true, RE.group 1 (RE.plus wordC), .star wsC true, RE.chr '(']

/-- `r"class\s+(\w+)"` (IGNORECASE). -/
def classIdRE : RE := RE.cat [RE.litI "class", RE.plus wsC, RE.group 1 (RE.plus wordC)]

def extractIdentifiersFromDoc (doc : DocStructure) : List String :=
  let ids : List String := []
  let ids :=
    match searchGroup1 classTitleRE (doc.meta_title.getD "") with
    | some n => setAdd ids (pyLower n)
    | none => ids
  doc.sections.foldl (fun ids sec =>
    let ids :=
      match reSearch methodTitleIdRE sec.title with
      | some (_, _, caps) =>
        let methodName := pyOrOptStr (pyOrOptStr (capStr sec.title.toList caps 1)
          (capStr sec.title.toList caps 2)) (capStr sec.title.toList caps 3)
        match methodName with
        | some m =>
          if m ≠ "" && !(["метод", "method", "введение", "introduction"].contains
              (pyLower m)) then
            setAdd ids (pyLower m)
          else ids
        | none => ids
      | none => ids
    (reFindall1 codeBlockIdRE sec.content).foldl (fun ids block =>
      let ids := (reFindall1 funcIdRE block).foldl (fun ids m =>
        if m.length > 2 then setAdd ids (pyLower m) else ids) ids
      (reFindall1 classIdRE block).foldl (fun ids m => setAdd ids (pyLower m)) ids)
      ids) ids

/-- `_find_doc_by_content_similarity`. -/
def findDocByContentSimilarity (codeStructure : CodeStructure)
    (docStructures : List (String × DocStructure)) (codeLanguage : LanguageType) :
    Option (String × DocStructure) :=
  let codeIdentifiers :=
    let ids := codeStructure.classes.foldl (fun ids cls =>
      cls.methods.foldl (fun ids m => setAdd ids (pyLower m.name))
        (setAdd ids (pyLower cls.name))) []
    codeStructure.functions.foldl (fun ids f => setAdd ids (pyLower f.name)) ids
  let best := docStructures.foldl (fun best pd =>
    let skip :=
      match detectDocLanguageFromStructure pd.1 pd.2 with
      | some docLang => decide (docLang ≠ codeLanguage)
      | none => false
    if skip then best
    else
      let docIdentifiers := extractIdentifiersFromDoc pd.2
      let score := (codeIdentifiers.filter (fun i => docIdentifiers.contains i)).length
      if score > best.2 && score > 0 then (some pd, score) else best)
    ((none : Option (String × DocStructure)), 0)
  best.1

/-- Stage 1 guarded by the truthiness test `if class_name:` on the optional
class name. -/
def findMatchingDocStage1Opt (className : Option String)
    (docStructures : List (String × DocStructure)) (codePath : String) :
    Option (String × DocStructure) :=
  match className with
  | some cn => if cn ≠ "" then findMatchingDocStage1 cn docStructures codePath else none
  | none => none

/-- `_find_matching_doc`: class-name stage, then filename stage, then
content-similarity stage, else `(None, None)`. -/
def findMatchingDoc (analyzeFile : String → Option CodeStructure)
    (codePath : String) (className : Option String)
    (docStructures : List (String × DocStructure)) :
    Option String × Option DocStructure :=
  let codeLanguage := detectLanguageFromFile codePath
  match findMatchingDocStage1Opt className docStructures codePath with
  | some pd => (some pd.1, some pd.2)
  | none =>
    match findMatchingDocStage2 codePath docStructures with
    | some pd => (some pd.1, some pd.2)
    | none =>
      match codeLanguage with
      | some lang =>
        match analyzeFile codePath with
        | some codeStructure =>
          match findDocByContentSimilarity codeStructure docStructures lang with
          | some pd => (some pd.1, some pd.2)
          | none => (none, none)
        | none => (none, none)
      | none => (none, none)

/-- `_get_primary_class_name`. -/
def getPrimaryClassName (cs : CodeStructure) : Option String :=
  match cs.classes with
  | cls :: _ => some cls.name
  | [] => none

/-- `_has_matching_code`. -/
def hasMatchingCode (className : String)
    (codeStructures : List (String × CodeStructure)) : Bool :=
  codeStructures.any (fun pc => pc.2.classes.any (fun cls => cls.name = className))

/-- `_add_file_paths_to_issues`. -/
def addFilePathsToIssues (issues : List ValidationIssue) (codePath docPath : String) :
    List ValidationIssue :=
  issues.map (fun i =>
    { i with issue := "[" ++ pyBasename codePath ++ " | " ++ pyBasename docPath ++ "] "
        ++ i.issue })

/-- `_match_file`. -/
def matchFile (cs : CodeStructure) (doc : DocStructure) (codePath docPath : String) :
    List ValidationIssue :=
  addFilePathsToIssues (matchApiEndpoints cs doc) codePath docPath
    ++ addFilePathsToIssues (findUndocumentedMethods cs doc) codePath docPath
    ++ addFilePathsToIssues (findDocumentedButMissingMethods cs doc) codePath docPath

/-- The issue-collection phase of `match_project`: per code file, the
matching document's entity issues or a missing-documentation issue; then a
missing-code issue per unmatched documented class. -/
def matchProjectIssues (analyzeFile : String → Option CodeStructure)
    (codeStructures : List (String × CodeStructure))
    (docStructures : List (String × DocStructure)) : List ValidationIssue :=
  let issues := codeStructures.foldl (fun issues pc =>
    let className := getPrimaryClassName pc.2
    let found := findMatchingDoc analyzeFile pc.1 className docStructures
    match found.2 with
    | some docStructure =>
      issues ++ matchFile pc.2 docStructure pc.1 (found.1.getD "")
    | none =>
      issues ++ [{
        id := "COMPLETENESS-FILE-001-" ++ natToStr (issues.length + 1),
        type := IssueType.COMPLETENESS,
        location := {},
        issue := "Файл кода '" ++ pc.1 ++ "' не имеет соответствующей документации" }]) []
  docStructures.foldl (fun issues pd =>
    match extractClassNameProj pd.2 with
    | some className =>
      if className ≠ "" && !hasMatchingCode className codeStructures then
        issues ++ [{
          id := "SEMANTIC-FILE-001-" ++ natToStr (issues.length + 1),
          type := IssueType.SEMANTIC,
          location := {},
          issue := "Документация '" ++ pd.1 ++ "' описывает класс '" ++ className
            ++ "', который отсутствует в коде проекта" }]
      else issues
    | none => issues) issues

/-- The status block of `match_project`. -/
def projectStatusOf (issues : List ValidationIssue) : ValidationStatus :=
  if issues.isEmpty then .VALID
  else if issues.all (fun i =>
      i.type ≠ IssueType.COMPLETENESS && i.type ≠ IssueType.SEMANTIC) then
    .VALID_WITH_WARNINGS
  else .INVALID

/-- `ProjectCodeDocumentationMatcher.match_project`. -/
def matchProject (analyzeFile : String → Option CodeStructure)
    (validationId : String) (timestamp : Int)
    (codeStructures : List (String × CodeStructure))
    (docStructures : List (String × DocStructure)) : ValidationReport :=
  let issues := matchProjectIssues analyzeFile codeStructures docStructures
  let corrections : List ValidationIssue := []
  { validation_id := validationId
    documentation_source := "project"
    timestamp := timestamp
    issues := issues
    corrections := corrections
    summary := { total_issues := issues.length, corrected_issues := corrections.length,
                 skipped_issues := 0 }
    status := projectStatusOf issues }

/-! ## Specification-side counting for claim C6 -/

/-- The heading lines of a document, as levels, in order: lines that start
with `=` and match `^(=+)\s+(.+)$`. -/
def headingLevels : List String → List Nat
  | [] => []
  | l :: rest =>
    if pyStartswith l "=" then
      match headerMatch l with
      | some m => m.1 :: headingLevels rest
      | none => headingLevels rest
    else headingLevels rest

/-- The claim's literal count: adjacent heading pairs whose levels differ by
more than one, in either direction. -/
def pairsDifferingByMoreThanOne : List Nat → Nat
  | a :: b :: rest =>
    (if a + 1 < b || b + 1 < a then 1 else 0) + pairsDifferingByMoreThanOne (b :: rest)
  | _ => 0

/-- The count realised by the code: adjacent heading pairs where the second
level exceeds the first by more than one (upward skips only). -/
def upwardSkipWith (cur : Nat) : List Nat → Nat
  | [] => 0
  | l :: ls => (if l > cur + 1 && cur > 0 then 1 else 0) + upwardSkipWith l ls

def upwardSkipPairs (levels : List Nat) : Nat := upwardSkipWith 0 levels

/-- Count of heading-level-skip issues among a list of issues. -/
def levelSkipIssueCount (issues : List ValidationIssue) : Nat :=
  (issues.filter (fun i => pyStartswith i.id "SYNTAX-HEADER-LEVEL-")).length

/-! ## Specification-side status derivation (claim C1's wording) -/

/-- The status decision order exactly as the specification words it, over a
report's `issues` (uncorrected) and `corrections` lists: no issues at all →
VALID; no SYNTAX-typed issue among the remaining uncorrected issues →
VALID_WITH_WARNINGS; every issue corrected → FULLY_CORRECTED; some but not
all corrected → PARTIALLY_CORRECTED; otherwise INVALID. -/
def claimStatus (issues corrections : List ValidationIssue) : ValidationStatus :=
  if issues.isEmpty && corrections.isEmpty then .VALID
  else if !(issues.any (fun i => i.type = IssueType.SYNTAX)) then .VALID_WITH_WARNINGS
  else if issues.isEmpty then .FULLY_CORRECTED
  else if !corrections.isEmpty && !issues.isEmpty then .PARTIALLY_CORRECTED
  else .INVALID

/-! ## Concrete inputs used by the claim theorems and witnesses -/

/-- An uncorrected SYNTAX issue. -/
def wSynIssue : ValidationIssue :=
  { id := "SYNTAX-HEADER-LEVEL-3", type := IssueType.SYNTAX, location := {},
    issue := "heading skip" }

/-- A corrected issue (carries `corrected_content`). -/
def wCorrIssue : ValidationIssue :=
  { id := "SYNTAX-HEADER-EMPTY-5", type := IssueType.SYNTAX, location := {},
    issue := "empty heading", corrected_content := some "= Title" }

/-- A benign effect environment: asciidoctor succeeds, all URLs reachable. -/
def wRunEnv : RunEnv :=
  { sv := { asciidoctor := fun _ => .ran 0 [], urlOk := fun _ => true },
    validationId := "v-1", timestamp := 0 }

/-- C3: the code side — exactly one endpoint, `GET /users/{id}`, carried by a
top-level function with no parameters. -/
def c3GetUserMethod : MethodInfo :=
  { name := "get_user", is_api_endpoint := true, http_method := some "GET",
    path := some "/users/{id}", line_start := 10, line_end := 20 }

def c3Code : CodeStructure := { functions := [c3GetUserMethod] }

/-- C3: a documentation section titled `GET /users/{id}` carrying that
endpoint's path. -/
def c3SectionWith : DocSection :=
  { title := "GET /users/{id}", content := "Returns a user.",
    level := 2, line_number := some 5, path := some "/users/{id}" }

def c3DocWith : DocStructure :=
  { meta_title := some "API Documentation", sections := [c3SectionWith] }

/-- C3: the same document with the endpoint section removed. -/
def c3SectionOther : DocSection :=
  { title := "Overview", content := "General notes.", level := 2, line_number := some 3 }

def c3DocWithout : DocStructure :=
  { meta_title := some "API Documentation", sections := [c3SectionOther] }

/-- C3: the single SEMANTIC issue produced for the undocumented endpoint. -/
def c3MissingIssue : ValidationIssue :=
  { id := "SEMANTIC-API-001-1", type := IssueType.SEMANTIC,
    location := { line := some 10, section_ := some "API Documentation" },
    issue := "API-эндпоинт '/users/{id}' (GET) не описан в документации" }

/-- C5: a documentation structure on which every class-name cascade step
fails. -/
def wEmptyDoc : DocStructure := {}

/-- C2/C4 witnesses: a documentation file whose title names a class. -/
def wClassDoc : DocStructure :=
  { meta_title := some "Документация класса UserService", sections := [] }

/-- C9: `def increment(self, count: int = 10)`. -/
def c9FuncArgs : PyFunctionArgs :=
  { args := [{ arg := "self" }, { arg := "count", annotation := some (.name "int") }],
    defaults := [.numLit 10] }

def c9CountParam : ParameterInfo :=
  { name := "count", type := some "int", default_value := some "10", required := false }

def c9Method : MethodInfo :=
  { name := "increment", parameters := parseFunctionParams c9FuncArgs true,
    line_start := 5, line_end := 8 }

/-- C9: the documented `count` parameter — same name, same type, marked
required. -/
def c9DocParam : DocParamRec :=
  { name := some "count", type := some "int", required := some true,
    doc_line := some 12, section_ := some "Метод increment" }

/-- C9: the single expected required/optional-mismatch issue. -/
def c9ExpectedIssue : ValidationIssue :=
  { id := "SEMANTIC-PARAM-002-1", type := IssueType.SEMANTIC,
    location := { line := some 12, section_ := some "Метод increment" },
    issue := "Несоответствие обязательности параметра 'count' метода 'increment': "
      ++ "в коде - необязательный, в документации - обязательный" }

theorem strToListAppend (a b : String) : (a ++ b).toList = a.toList ++ b.toList := rfl

theorem levelSkipIssueCount_append (xs ys : List ValidationIssue) :
    levelSkipIssueCount (xs ++ ys) = levelSkipIssueCount xs + levelSkipIssueCount ys := by
  simp [levelSkipIssueCount, List.filter_append]

theorem levelIssue_id_hit (i level cur : Nat) (line : String) :
    pyStartswith (headerLevelIssue i level cur line).id "SYNTAX-HEADER-LEVEL-" = true := by
  show pyStartswith ("SYNTAX-HEADER-LEVEL-" ++ natToStr (i + 1)) _ = true
  unfold pyStartswith
  rw [strToListAppend]
  simp [List.isPrefixOf_iff_prefix, List.prefix_append]

theorem emptyIssue_id_miss (i : Nat) (line : String) :
    pyStartswith (headerEmptyIssue i line).id "SYNTAX-HEADER-LEVEL-" = false := by
  show pyStartswith ("SYNTAX-HEADER-EMPTY-" ++ natToStr (i + 1)) _ = false
  unfold pyStartswith
  rw [strToListAppend]
  simp [List.isPrefixOf, List.cons_prefix_cons]

theorem formatIssue_id_miss (i : Nat) (line : String) :
    pyStartswith (headerFormatIssue i line).id "SYNTAX-HEADER-LEVEL-" = false := by
  show pyStartswith ("SYNTAX-HEADER-FORMAT-" ++ natToStr (i + 1)) _ = false
  unfold pyStartswith
  rw [strToListAppend]
  simp [List.isPrefixOf, List.cons_prefix_cons]

theorem validateHeadersGo_skip_count :
    ∀ (lines : List String) (i cur : Nat),
      levelSkipIssueCount (validateHeadersGo lines i cur)
        = upwardSkipWith cur (headingLevels lines)
  | [], _, _ => rfl
  | line :: rest, i, cur => by
    by_cases hs : pyStartswith line "=" = true
    · cases hm : headerMatch line with
      | some m =>
        obtain ⟨level, rawTitle⟩ := m
        rw [validateHeadersGo, headingLevels, if_pos hs, if_pos hs, hm]
        simp only [levelSkipIssueCount_append]
        rw [validateHeadersGo_skip_count rest (i + 1) level, upwardSkipWith]
        have hA : ∀ b : Bool,
            levelSkipIssueCount (if b = true then [headerLevelIssue i level cur line] else [])
              = (if b = true then 1 else 0) := by
          intro b
          cases b <;> simp [levelSkipIssueCount, levelIssue_id_hit]
        have hB :
            levelSkipIssueCount (if pyStrip rawTitle = "" then [headerEmptyIssue i line] else [])
              = 0 := by
          by_cases hemp : pyStrip rawTitle = "" <;>
            simp [hemp, levelSkipIssueCount, emptyIssue_id_miss]
        rw [hA, hB]
        omega
      | none =>
        rw [validateHeadersGo, headingLevels, if_pos hs, if_pos hs, hm]
        simp only [levelSkipIssueCount, List.filter_cons, formatIssue_id_miss]
        exact validateHeadersGo_skip_count rest (i + 1) cur
    · rw [validateHeadersGo, headingLevels, if_neg hs, if_neg hs]
      exact validateHeadersGo_skip_count rest (i + 1) cur

/-- C6 (counterexample): the claim as stated fails on the document
`"=== A\n= B"`: its two heading lines have levels 3 and 1, an adjacent pair
whose levels differ by more than one, yet `_validate_headers` reports zero
heading-level-skip issues, because the code only flags a heading whose level
exceeds the previous heading's level by more than one. -/
theorem c6_counterexample :
    levelSkipIssueCount (validateHeaders ["=== A", "= B"]) = 0
      ∧ pairsDifferingByMoreThanOne (headingLevels ["=== A", "= B"]) = 1
      ∧ levelSkipIssueCount (validateHeaders ["=== A", "= B"])
          ≠ pairsDifferingByMoreThanOne (headingLevels ["=== A", "= B"]) := by
  refine ⟨by decide, by decide, by decide⟩

/-- C6 (amended): for every document, the number of heading-level-skip issues
reported by `_validate_headers` equals the number of adjacent pairs of
heading lines in which the second heading's level exceeds the first's by
more than one (upward skips only), scanning only heading lines and ignoring
content lines. -/
theorem c6_amended (lines : List String) :
    levelSkipIssueCount (validateHeaders lines) = upwardSkipPairs (headingLevels lines) :=
  validateHeadersGo_skip_count lines 0 0

/-- C7 (code behaviour at the failing input): a document with one delimited
block whose open marker `----` is correctly paired with an identical close
marker nevertheless yields two block issues — the close marker itself is
flagged as a nested block (the close branch of `_validate_code_blocks` is
unreachable, since any line equal to the open delimiter also starts with a
delimiter marker) and the block is then reported unterminated at EOF.  The
claim says such a document produces zero block-related issues. -/
theorem c7_failing_input_behavior :
    validateCodeBlocks ["----", "x", "----"]
      = [blockNestedIssue 2 0 "----", blockUnclosedIssue 0 "----"]
      ∧ validateCodeBlocks ["----", "x", "----"] ≠ [] := by
  refine ⟨by decide, by decide⟩

/-- C8 (code behaviour at the failing input): a table opened and closed by
`|===` whose data rows all have two cells nevertheless yields issues — the
closing `|===` is consumed by the row branch of `_validate_tables` (it
starts with `|`), counted as a one-cell row mismatching the expected two,
and the table is then reported unclosed.  The claim says such a document
produces no table-related issues. -/
theorem c8_failing_input_behavior :
    validateTables ["|===", "| a | b", "| c | d", "|==="]
      = [tableColumnsIssue 3 2 1 "|===", tableUnclosedIssue 0 "|==="]
      ∧ validateTables ["|===", "| a | b", "| c | d", "|==="] ≠ [] := by
  refine ⟨by decide, by decide⟩

/-! ## Supporting lemmas for the status-derivation claims -/

theorem all_ne_eq_not_any_eq (l : List ValidationIssue) :
    (l.all fun i => i.type ≠ IssueType.SYNTAX)
      = !(l.any fun i => i.type = IssueType.SYNTAX) := by
  induction l with
  | nil => rfl
  | cons a l ih =>
    simp only [List.all_cons, List.any_cons, Bool.not_or, decide_not] at *
    rw [ih]

theorem filter_both_empty {p : ValidationIssue → Bool} {l : List ValidationIssue}
    (h1 : l.filter (fun i => !p i) = []) (h2 : l.filter p = []) : l = [] := by
  cases l with
  | nil => rfl
  | cons a l =>
    by_cases hp : p a
    · simp [List.filter_cons, hp] at h2
    · simp [List.filter_cons, hp] at h1

theorem deriveStatus_eq_claimStatus (allIssues : List ValidationIssue) :
    deriveStatus allIssues
      = claimStatus (allIssues.filter (fun i => !optTruthy i.corrected_content))
          (allIssues.filter (fun i => optTruthy i.corrected_content)) := by
  unfold deriveStatus claimStatus
  set issues := allIssues.filter (fun i => !optTruthy i.corrected_content) with hI
  set corrections := allIssues.filter (fun i => optTruthy i.corrected_content) with hC
  by_cases h0 : allIssues.isEmpty
  · have h00 : allIssues = [] := List.isEmpty_iff.mp h0
    subst h00
    simp [hI, hC]
  · rw [if_neg (by simpa using h0)]
    have hne : ¬(issues.isEmpty && corrections.isEmpty) = true := by
      intro hcontra
      have h1 := List.isEmpty_iff.mp (Bool.and_elim_left hcontra)
      have h2 := List.isEmpty_iff.mp (Bool.and_elim_right hcontra)
      have hA : allIssues = [] := filter_both_empty h1 h2
      rw [hA] at h0
      exact h0 rfl
    rw [if_neg hne]
    rw [all_ne_eq_not_any_eq]
    by_cases h2 : (issues.any fun i => i.type = IssueType.SYNTAX) = true
    · simp only [h2]
      have hIne : issues ≠ [] := by
        intro hnil
        rw [hnil] at h2
        simp at h2
      have hlen : allIssues.length = corrections.length + issues.length :=
        List.length_eq_length_filter_add _
      have hlt : corrections.length ≠ allIssues.length := by
        have : 0 < issues.length := List.length_pos.mpr hIne
        omega
      rw [if_neg hlt]
      rw [if_neg (by simp [hIne])]
      by_cases h3 : corrections.isEmpty
      · have h33 : corrections = [] := List.isEmpty_iff.mp h3
        simp [h33, hIne]
      · have h4 : (!corrections.isEmpty && !issues.isEmpty) = true := by
          simp [h3, List.isEmpty_iff, hIne]
        simp [h4, h3, hIne]
    · rw [Bool.not_eq_true] at h2
      simp [h2]

theorem derive_partial (allIssues : List ValidationIssue) (i : ValidationIssue)
    (h1 : allIssues.filter (fun i => !optTruthy i.corrected_content) = [i])
    (h2 : i.type = IssueType.SYNTAX)
    (h3 : (allIssues.filter (fun i => optTruthy i.corrected_content)).length = 1) :
    deriveStatus allIssues = ValidationStatus.PARTIALLY_CORRECTED := by
  unfold deriveStatus
  have hlen : allIssues.length
      = (allIssues.filter (fun i => optTruthy i.corrected_content)).length
        + (allIssues.filter (fun i => !optTruthy i.corrected_content)).length :=
    List.length_eq_length_filter_add _
  rw [h1, h3] at hlen
  have hA : ¬allIssues.isEmpty = true := by
    intro h
    rw [List.isEmpty_iff.mp h] at hlen
    simp at hlen
  rw [if_neg hA, h1]
  have hsyn : ¬([i].all fun j => j.type ≠ IssueType.SYNTAX) = true := by
    simp [h2]
  have hlen2 : allIssues.length = 2 := by simpa using hlen
  rw [if_neg hsyn, h3, if_neg (by omega)]
  have hcne : ¬(allIssues.filter (fun i => optTruthy i.corrected_content)).isEmpty = true := by
    intro h
    rw [List.isEmpty_iff.mp h] at h3
    simp at h3
  simp [hcne]

/-- C1: `ValidationRuleEngine.validate` derives its status by the claim's
fixed decision order: (1) on every run, the report's status equals the
claim-worded decision procedure applied to its uncorrected and corrected
issue lists; (2) the derivation applied to a combined list with exactly one
uncorrected SYNTAX issue and one corrected issue yields
PARTIALLY_CORRECTED; (3) a report with zero issues has status VALID and
empty `issues` and `corrections` lists. -/
theorem c1_status_decision_order :
    (∀ (env : RunEnv) (parsedDoc : ParsedDoc) (sourcePath : String),
      (ruleEngineValidate env parsedDoc sourcePath).status
        = claimStatus (ruleEngineValidate env parsedDoc sourcePath).issues
            (ruleEngineValidate env parsedDoc sourcePath).corrections)
    ∧ (∀ (allIssues : List ValidationIssue) (i : ValidationIssue),
      allIssues.filter (fun i => !optTruthy i.corrected_content) = [i] →
      i.type = IssueType.SYNTAX →
      (allIssues.filter (fun i => optTruthy i.corrected_content)).length = 1 →
      deriveStatus allIssues = ValidationStatus.PARTIALLY_CORRECTED)
    ∧ (∀ (env : RunEnv) (parsedDoc : ParsedDoc) (sourcePath : String),
      (ruleEngineValidate env parsedDoc sourcePath).summary.total_issues = 0 →
      (ruleEngineValidate env parsedDoc sourcePath).status = ValidationStatus.VALID
        ∧ (ruleEngineValidate env parsedDoc sourcePath).issues = []
        ∧ (ruleEngineValidate env parsedDoc sourcePath).corrections = []) := by
  refine ⟨?_, derive_partial, ?_⟩
  · intro env parsedDoc sourcePath
    exact deriveStatus_eq_claimStatus _
  · intro env parsedDoc sourcePath h
    have hA : engineAllIssues env parsedDoc sourcePath = [] :=
      List.length_eq_zero.mp h
    refine ⟨?_, ?_, ?_⟩
    · show deriveStatus (engineAllIssues env parsedDoc sourcePath) = _
      rw [hA]
      rfl
    · show List.filter _ (engineAllIssues env parsedDoc sourcePath) = _
      rw [hA]
      rfl
    · show List.filter _ (engineAllIssues env parsedDoc sourcePath) = _
      rw [hA]
      rfl

/-- C1 witness: the PARTIALLY_CORRECTED branch at a concrete issue pair, and
the zero-issue VALID branch at a concrete run on an empty parsed document. -/
theorem c1_status_decision_order_witness :
    deriveStatus [wSynIssue, wCorrIssue] = ValidationStatus.PARTIALLY_CORRECTED
    ∧ ((ruleEngineValidate wRunEnv {} "doc.adoc").status = ValidationStatus.VALID
       ∧ (ruleEngineValidate wRunEnv {} "doc.adoc").issues = []
       ∧ (ruleEngineValidate wRunEnv {} "doc.adoc").corrections = []) :=
  ⟨c1_status_decision_order.2.1 [wSynIssue, wCorrIssue] wSynIssue (by decide) (by decide)
      (by decide),
   c1_status_decision_order.2.2 wRunEnv {} "doc.adoc" (by decide)⟩

theorem matchProject_status (af : String → Option CodeStructure) (vid : String)
    (ts : Int) (cs : List (String × CodeStructure)) (ds : List (String × DocStructure)) :
    (matchProject af vid ts cs ds).status
      = projectStatusOf (matchProjectIssues af cs ds) := rfl

theorem matchProject_issues (af : String → Option CodeStructure) (vid : String)
    (ts : Int) (cs : List (String × CodeStructure)) (ds : List (String × DocStructure)) :
    (matchProject af vid ts cs ds).issues = matchProjectIssues af cs ds := rfl

theorem projectStatusOf_invalid (issues : List ValidationIssue) (i : ValidationIssue)
    (hmem : i ∈ issues) (htype : i.type = IssueType.SEMANTIC) :
    projectStatusOf issues = ValidationStatus.INVALID := by
  unfold projectStatusOf
  have hne : ¬issues.isEmpty = true := by
    intro h
    rw [List.isEmpty_iff.mp h] at hmem
    simp at hmem
  rw [if_neg hne]
  have hall : ¬(issues.all fun i =>
      i.type ≠ IssueType.COMPLETENESS && i.type ≠ IssueType.SEMANTIC) = true := by
    intro h
    have := List.all_eq_true.mp h i hmem
    rw [htype] at this
    simp at this
  rw [if_neg hall]

/-- C2: whenever the issue list of a report produced by
`ProjectCodeDocumentationMatcher.match_project` contains a SEMANTIC issue,
the report's status is INVALID, regardless of the other issue types and of
corrections (the corrections list is always empty at project level). -/
theorem c2_semantic_forces_invalid :
    ∀ (af : String → Option CodeStructure) (vid : String) (ts : Int)
      (cs : List (String × CodeStructure)) (ds : List (String × DocStructure)),
    (∃ i ∈ (matchProject af vid ts cs ds).issues, i.type = IssueType.SEMANTIC) →
    (matchProject af vid ts cs ds).status = ValidationStatus.INVALID := by
  intro af vid ts cs ds h
  obtain ⟨i, hmem, htype⟩ := h
  rw [matchProject_issues] at hmem
  rw [matchProject_status]
  exact projectStatusOf_invalid _ i hmem htype

/-- C2 witness: an empty code side plus one documentation file describing a
class that exists in no code file yields a SEMANTIC issue and an INVALID
project report. -/
theorem c2_semantic_forces_invalid_witness :
    (matchProject (fun _ => none) "v-2" 0 []
        [("docs/user_service.md", wClassDoc)]).status = ValidationStatus.INVALID :=
  c2_semantic_forces_invalid (fun _ => none) "v-2" 0 []
    [("docs/user_service.md", wClassDoc)] (by decide)

/-- C3: with exactly the code endpoint `GET /users/{id}` (a parameterless
handler) and a documentation section titled "GET /users/{id}" carrying that
path, `match_api_endpoints` returns no issues; with the section removed it
returns exactly one SEMANTIC issue whose text names the path
`/users/{id}`. -/
theorem c3_endpoint_matching :
    matchApiEndpoints c3Code c3DocWith = []
    ∧ matchApiEndpoints c3Code c3DocWithout = [c3MissingIssue]
    ∧ c3MissingIssue.type = IssueType.SEMANTIC
    ∧ (∃ pre post, c3MissingIssue.issue = pre ++ "/users/{id}" ++ post) := by
  refine ⟨by decide, by decide, rfl,
    "API-эндпоинт '", "' (GET) не описан в документации", by decide⟩

theorem stage1_find_first (codePath cn : String) (p : String) (d : DocStructure)
    (post : List (String × DocStructure)) (hhit : stage1Hit codePath cn (p, d) = true) :
    ∀ (pre : List (String × DocStructure)),
      (∀ pd ∈ pre, stage1Hit codePath cn pd = false) →
      (pre ++ (p, d) :: post).find? (fun pd => stage1Hit codePath cn pd) = some (p, d)
  | [], _ => List.find?_cons_of_pos _ hhit
  | q :: pre, hpre => by
    rw [List.cons_append,
      List.find?_cons_of_neg _ (by simp [hpre q (List.mem_cons_self q pre)])]
    exact stage1_find_first codePath cn p d post hhit pre
      (fun pd hmem => hpre pd (List.mem_cons_of_mem q hmem))

/-- C4: (1) if the document at some position of the documentation map has a
resolved class name equal to the code file's primary class name and is
language-compatible, and no earlier document satisfies the Stage-1 test,
then `_find_matching_doc` returns that document — for every analysis
environment, hence irrespective of any Stage-3 identifier-intersection
scores; (2) whenever a Stage-1 or Stage-2 candidate exists, the result does
not depend on the code-analysis function that only Stage 3 consults. -/
theorem c4_stage1_precedence :
    (∀ (af : String → Option CodeStructure) (codePath cn : String)
       (pre post : List (String × DocStructure)) (p : String) (d : DocStructure),
      cn ≠ "" →
      (∀ pd ∈ pre, stage1Hit codePath cn pd = false) →
      extractClassNameProj d = some cn →
      isLanguageCompatible codePath p d = true →
      findMatchingDoc af codePath (some cn) (pre ++ (p, d) :: post) = (some p, some d))
    ∧ (∀ (af af' : String → Option CodeStructure) (codePath : String)
        (className : Option String) (docs : List (String × DocStructure)),
      ((∃ cn, className = some cn ∧ cn ≠ ""
          ∧ ∃ pd ∈ docs, stage1Hit codePath cn pd = true)
        ∨ (∃ pd ∈ docs, stage2Hit codePath pd = true)) →
      findMatchingDoc af codePath className docs
        = findMatchingDoc af' codePath className docs) := by
  constructor
  · intro af codePath cn pre post p d hcn hpre hname hcompat
    have hhit : stage1Hit codePath cn (p, d) = true := by
      unfold stage1Hit
      rw [hname]
      simp [hcn, hcompat]
    have hfind : findMatchingDocStage1Opt (some cn) (pre ++ (p, d) :: post) codePath
        = some (p, d) := by
      simp only [findMatchingDocStage1Opt]
      rw [if_pos hcn]
      exact stage1_find_first codePath cn p d post hhit pre hpre
    simp only [findMatchingDoc]
    rw [hfind]
  · intro af af' codePath className docs h
    rcases h with ⟨cn, hcls, hcn, pd, hmem, hhit⟩ | ⟨pd, hmem, hhit⟩
    · subst hcls
      have hsome : (docs.find? (fun pd => stage1Hit codePath cn pd)).isSome :=
        List.find?_isSome.mpr ⟨pd, hmem, hhit⟩
      obtain ⟨r, hr⟩ := Option.isSome_iff_exists.mp hsome
      have hfind : findMatchingDocStage1Opt (some cn) docs codePath = some r := by
        simp only [findMatchingDocStage1Opt]
        rw [if_pos hcn]
        exact hr
      simp only [findMatchingDoc]
      rw [hfind]
    · cases hs1 : findMatchingDocStage1Opt className docs codePath with
      | some r =>
        simp only [findMatchingDoc]
        rw [hs1]
      | none =>
        have hmemf : pd ∈ docs.filter (fun pd => stage2Hit codePath pd) :=
          List.mem_filter.mpr ⟨hmem, hhit⟩
        have hne : docs.filter (fun pd => stage2Hit codePath pd) ≠ [] :=
          List.ne_nil_of_mem hmemf
        obtain ⟨r, hr⟩ := Option.isSome_iff_exists.mp
          (by
            rw [List.head?_isSome]
            exact hne)
        have hs2 : findMatchingDocStage2 codePath docs = some r := hr
        simp only [findMatchingDoc]
        rw [hs1, hs2]

/-- C4 witness: a Python code file whose only class is `UserService`, and a
documentation map with one document titled "Документация класса
UserService"; Stage 1 selects it, for any analysis environment, and the
result is independent of the analysis environment. -/
theorem c4_stage1_precedence_witness :
    findMatchingDoc (fun _ => none) "src/UserService.py" (some "UserService")
        [("docs/UserService_doc.md", wClassDoc)]
      = (some "docs/UserService_doc.md", some wClassDoc)
    ∧ findMatchingDoc (fun _ => none) "src/UserService.py" (some "UserService")
        [("docs/UserService_doc.md", wClassDoc)]
      = findMatchingDoc (fun _ => some {}) "src/UserService.py" (some "UserService")
        [("docs/UserService_doc.md", wClassDoc)] :=
  ⟨c4_stage1_precedence.1 (fun _ => none) "src/UserService.py" "UserService" [] []
      "docs/UserService_doc.md" wClassDoc (by decide) (by simp) (by decide) (by decide),
   c4_stage1_precedence.2 (fun _ => none) (fun _ => some {}) "src/UserService.py"
      (some "UserService") [("docs/UserService_doc.md", wClassDoc)]
      (Or.inl ⟨"UserService", rfl, by decide,
        ("docs/UserService_doc.md", wClassDoc), by simp, by decide⟩)⟩

/-- C5 (counterexample): on a documentation structure where every step of
the single-file class-name cascade fails (empty title, no sections), the
lookup does not report the class name as unknown — it returns the guessed
hardcoded name `"Calculator"`. -/
theorem c5_counterexample :
    extractClassNameSingle wEmptyDoc = some "Calculator"
    ∧ classNameStepTitle wEmptyDoc = none
    ∧ classNameStepFirstSection wEmptyDoc = none
    ∧ classNameStepCodeBlock wEmptyDoc = none
    ∧ classNameStepTitleWord wEmptyDoc = none
    ∧ classNameStepSectionTitle wEmptyDoc = none := by
  refine ⟨?_, ?_, ?_, ?_, ?_, ?_⟩ <;> decide

/-- C5 (amended): when every step of the single-file class-name cascade
fails, the lookup used by the single-file matcher returns the hardcoded
fallback name `"Calculator"` rather than reporting the class name as
unknown. -/
theorem c5_amended (doc : DocStructure)
    (h1 : classNameStepTitle doc = none) (h2 : classNameStepFirstSection doc = none)
    (h3 : classNameStepCodeBlock doc = none) (h4 : classNameStepTitleWord doc = none)
    (h5 : classNameStepSectionTitle doc = none) :
    extractClassNameSingle doc = some "Calculator" := by
  unfold extractClassNameSingle
  rw [h1, h2, h3, h4, h5]

/-- C5 witness: the amended statement at the empty documentation
structure. -/
theorem c5_amended_witness : extractClassNameSingle wEmptyDoc = some "Calculator" :=
  c5_amended wEmptyDoc (by decide) (by decide) (by decide) (by decide) (by decide)

theorem parseFunctionParamsGo_mem (fa : PyFunctionArgs) (isMethod : Bool) (a : PyArg)
    (p : ParameterInfo) :
    ∀ (args1 args2 : List PyArg) (idx : Nat),
      mkParamInfo fa isMethod (idx + args1.length) a = some p →
      p ∈ parseFunctionParamsGo fa isMethod (args1 ++ a :: args2) idx
  | [], args2, idx, h => by
    rw [List.nil_append, parseFunctionParamsGo]
    rw [List.length_nil, Nat.add_zero] at h
    rw [h]
    exact List.mem_cons_self _ _
  | b :: args1, args2, idx, h => by
    rw [List.cons_append, parseFunctionParamsGo]
    have h2 : mkParamInfo fa isMethod ((idx + 1) + args1.length) a = some p := by
      rw [show (idx + 1) + args1.length = idx + (b :: args1).length by simp; omega]
      exact h
    have ih := parseFunctionParamsGo_mem fa isMethod a p args1 args2 (idx + 1) h2
    cases mkParamInfo fa isMethod idx b with
    | some q => exact List.mem_cons_of_mem q ih
    | none => exact ih

/-- C9: (1) in general, a (non-skipped) parameter covered by the defaults
list — i.e. declared with a default value — yields a `ParameterInfo` with
`required = false`; (2) for `def increment(self, count: int = 10)` the
analyzer produces exactly `count : int, required=false, default "10"`, and
matching that method against a documented `count` of the same type marked
required yields exactly one issue: the SEMANTIC required/optional mismatch
(`SEMANTIC-PARAM-002-1`), and no type-mismatch issue. -/
theorem c9_default_param_required_mismatch :
    (∀ (args1 args2 : List PyArg) (a : PyArg) (defaults : List PyExpr)
       (isMethod : Bool),
      (isMethod && (a.arg = "self" || a.arg = "cls")) = false →
      args2.length < defaults.length →
      ∃ p ∈ parseFunctionParams ⟨args1 ++ a :: args2, defaults⟩ isMethod,
        p.name = a.arg ∧ p.required = false)
    ∧ parseFunctionParams c9FuncArgs true = [c9CountParam]
    ∧ matchParameters c9Method [c9DocParam] = [c9ExpectedIssue] := by
  refine ⟨?_, by decide, by decide⟩
  intro args1 args2 a defaults isMethod hskip hdef
  have hne : defaults.isEmpty = false := by
    cases defaults with
    | nil => simp at hdef
    | cons d ds => rfl
  have hpos : (args1 ++ a :: args2).length - (0 + args1.length) - 1 = args2.length := by
    simp
  have hmk : mkParamInfo ⟨args1 ++ a :: args2, defaults⟩ isMethod (0 + args1.length) a
      = some { name := a.arg,
               type := match a.annotation with
                       | some ann => annotationTypeName ann
                       | none => none,
               required := false,
               default_value :=
                 match defaults.get? (defaults.length - args2.length - 1) with
                 | some d => defaultValueStr d
                 | none => none,
               annotations := [] } := by
    unfold mkParamInfo
    rw [if_neg (by simp [hskip])]
    simp only [hpos]
    rw [if_pos (by simp [hne, hdef])]
  exact ⟨_, parseFunctionParamsGo_mem _ isMethod a _ args1 args2 0 hmk, rfl, rfl⟩

/-- C9 witness: the general required/optional fact applied to
`def increment(self, count: int = 10)`. -/
theorem c9_default_param_required_mismatch_witness :
    ∃ p ∈ parseFunctionParams
        ⟨[{ arg := "self" }] ++ { arg := "count", annotation := some (.name "int") }
            :: [], [.numLit 10]⟩ true,
      p.name = "count" ∧ p.required = false :=
  c9_default_param_required_mismatch.1 [{ arg := "self" }] []
    { arg := "count", annotation := some (.name "int") } [.numLit 10] true
    (by decide) (by decide)

/-- C10: every project-level report has an empty corrections list, a zero
corrected-issues count, and a status among VALID, VALID_WITH_WARNINGS and
INVALID — PARTIALLY_CORRECTED and FULLY_CORRECTED are unreachable for
`match_project`. -/
theorem c10_project_report_invariants :
    ∀ (af : String → Option CodeStructure) (vid : String) (ts : Int)
      (cs : List (String × CodeStructure)) (ds : List (String × DocStructure)),
    (matchProject af vid ts cs ds).corrections = []
    ∧ (matchProject af vid ts cs ds).summary.corrected_issues = 0
    ∧ ((matchProject af vid ts cs ds).status = ValidationStatus.VALID
       ∨ (matchProject af vid ts cs ds).status = ValidationStatus.VALID_WITH_WARNINGS
       ∨ (matchProject af vid ts cs ds).status = ValidationStatus.INVALID) := by
  intro af vid ts cs ds
  refine ⟨rfl, rfl, ?_⟩
  rw [matchProject_status]
  unfold projectStatusOf
  split
  · exact Or.inl rfl
  · split
    · exact Or.inr (Or.inl rfl)
    · exact Or.inr (Or.inr rfl)
